import Mathlib

/-!
Shallow embedding of `src/server.js` (the "Bereza" messaging server).

The source file contains two concatenated versions of the server:
* version 1 (`BerezaServer` with JWT auth, friends, unread counters,
  `socketUsers : Map<socketId, userId>`), lines 1-1081;
* version 2 (the simpler variant with `users : Map<userId, user(socketId)>`
  and calls keyed by `chatId`), lines 1082-1454.

JS `Map`s are modelled as insertion-ordered association lists (`mapGet`,
`mapSet`, `mapDelete` mirror `Map.get/set/delete`); JS `Set`s of ids as
duplicate-free lists (`setAdd` mirrors `Set.add`, `List.erase` mirrors
`Set.delete`).  Timestamps (`Date.now()` / ISO strings) are modelled as `Nat`
milliseconds; the randomized parts of generated ids are taken as parameters.
Socket `emit` calls are modelled as a list of `Event` values returned next to
the new state.
-/

abbrev UserId := String
abbrev ChatId := String
abbrev CallId := String
abbrev SocketId := String

/-- `Map.get` (first binding wins, as JS maps have unique keys). -/
def mapGet {κ α : Type} [DecidableEq κ] (m : List (κ × α)) (k : κ) : Option α :=
  match m with
  | [] => none
  | (a, b) :: rest => if a = k then some b else mapGet rest k

/-- `Map.set`: overwrite in place if the key is present, else append. -/
def mapSet {κ α : Type} [DecidableEq κ] (m : List (κ × α)) (k : κ) (v : α) : List (κ × α) :=
  match m with
  | [] => [(k, v)]
  | (a, b) :: rest => if a = k then (k, v) :: rest else (a, b) :: mapSet rest k v

/-- `Map.delete`: remove the binding for the key. -/
def mapDelete {κ α : Type} [DecidableEq κ] (m : List (κ × α)) (k : κ) : List (κ × α) :=
  match m with
  | [] => []
  | (a, b) :: rest => if a = k then rest else (a, b) :: mapDelete rest k

/-- `Set.add`: append if absent (JS sets keep insertion order, no duplicates). -/
def setAdd {α : Type} [DecidableEq α] (l : List α) (x : α) : List α :=
  if x ∈ l then l else l ++ [x]

/-- JS `x || default` for string options (both `undefined` and `''` are falsy). -/
def jsOr (x : Option String) (d : String) : String :=
  match x with
  | none => d
  | some s => if s = "" then d else s

/-- `array.filter((v, i, a) => a.indexOf(v) === i)` / `[...new Set(a)]`:
deduplication keeping the first occurrence of each element. -/
def dedupFirst : List String → List String
  | [] => []
  | x :: xs => x :: (dedupFirst xs).filter (fun y => y ≠ x)

/-- Replace the first element satisfying the predicate (JS `findIndex` +
in-place mutation of the found object). -/
def replaceFirst {α : Type} (l : List α) (p : α → Bool) (v : α) : List α :=
  match l with
  | [] => []
  | x :: xs => if p x then v :: xs else x :: replaceFirst xs p v

/-- User record of version 1 (password hash omitted: never read by the core). -/
structure User where
  id : UserId
  name : String
  email : String
  avatar : String
  status : String
  createdAt : Nat
  lastSeen : Nat
deriving DecidableEq, Repr

/-- Chat message (v1 `send_message` shape; v2 reuses the same fields). -/
structure Message where
  id : String
  text : String
  senderId : UserId
  senderName : String
  senderAvatar : String
  timestamp : Nat
  chatId : ChatId
deriving DecidableEq, Repr

/-- Chat record.  `unreadCount` is `0` where the JS object has no such
property (every read is guarded by `|| 0` in the source). -/
structure Chat where
  id : ChatId
  name : String
  chatType : String
  participants : List UserId
  messages : List Message
  unreadCount : Nat
  createdAt : Nat
  updatedAt : Nat
  lastMessage : Option Message
deriving DecidableEq, Repr

/-- Call record of version 1 (`activeCalls` keyed by `callId`). -/
structure Call where
  id : CallId
  chatId : ChatId
  callerId : UserId
  callerName : String
  callType : String
  participants : List UserId
  status : String
  startTime : Nat
deriving DecidableEq, Repr

/-- Friend request record. -/
structure FriendRequest where
  id : String
  fromUserId : UserId
  toUserId : UserId
  status : String
  createdAt : Nat
  respondedAt : Option Nat
deriving DecidableEq, Repr

/-- The global in-memory stores of version 1 (`BerezaServer` constructor). -/
structure ServerState where
  users : List (UserId × User)
  chats : List (ChatId × Chat)
  activeCalls : List (CallId × Call)
  friendships : List (UserId × List UserId)
  friendRequests : List (UserId × List FriendRequest)
  socketUsers : List (SocketId × UserId)
deriving DecidableEq, Repr

/-- Outbound socket events.  `friendsList`, `friendRequestsList` and
`chatsList` carry read-only projections of the state in the source; the
payloads are omitted here because no state or claim depends on them. -/
inductive Event where
  | authError (target : SocketId)
  | authenticated (target : SocketId)
  | friendsList (target : SocketId)
  | friendRequestsList (target : SocketId)
  | chatsList (target : SocketId)
  | friendStatusChanged (target : SocketId) (friendId : UserId) (name status : String) (lastSeen : Nat)
  | friendRequestEvt (target : SocketId) (requestId : String) (fromUserId : UserId)
  | friendRequestAccepted (target : SocketId) (byUserId : UserId)
  | chatCreated (target : SocketId) (chatId : ChatId)
  | newMessage (target : SocketId) (chatId : ChatId) (message : Message)
  | incomingCall (target : SocketId) (callId : CallId) (chatId : ChatId) (caller : String) (callType : String)
  | callStarted (target : SocketId) (callId : CallId) (call : Call)
  | callAcceptedBroadcast (callId : CallId) (userId : UserId) (call : Call)
  | callEnded (target : SocketId) (callId : CallId) (duration : Int)
  | incomingCallV2 (target : SocketId) (chatId : ChatId) (caller : Option String) (callType : Option String)
  | callAcceptedV2 (target : SocketId) (chatId : ChatId) (caller : String)
  | callEndedV2 (target : SocketId) (chatId : ChatId) (duration : Int)
deriving DecidableEq, Repr

/-- `getSocketByUserId`: scan `socketUsers` in insertion order, return the
first socket mapped to the user. -/
def getSocketByUserId (s : ServerState) (userId : UserId) : Option SocketId :=
  (s.socketUsers.find? (fun p => p.2 = userId)).map (fun p => p.1)

/-- `isUserOnline`: `Array.from(this.socketUsers.values()).includes(userId)`. -/
def isUserOnline (s : ServerState) (userId : UserId) : Bool :=
  s.socketUsers.any (fun p => p.2 = userId)

/-- One iteration of the v1 `send_message` delivery `forEach`: emit to a
connected participant, otherwise bump `unreadCount` unless it is the sender. -/
def deliverStep (s : ServerState) (sender : UserId) (chatId : ChatId) (message : Message)
    (acc : List Event × Nat) (pid : UserId) : List Event × Nat :=
  match getSocketByUserId s pid with
  | some psid => (acc.1 ++ [Event.newMessage psid chatId message], acc.2)
  | none => if pid ≠ sender then (acc.1, acc.2 + 1) else acc

/-- v1 `socket.on('send_message', ...)` (src/server.js lines 661-707).
`sid` is the emitting socket; `socket.userId` is recovered from
`socketUsers` (the two are kept in sync by `authenticate`/`disconnect`).
`msgId` stands for the generated `'msg_' + Date.now() + '_' + random`. -/
def handleSendMessage (s : ServerState) (sid : SocketId) (chatId : ChatId) (text : String)
    (now : Nat) (msgId : String) : ServerState × List Event :=
  match mapGet s.socketUsers sid with
  | none => (s, [])
  | some userId =>
    if chatId = "" then (s, []) else
    if text = "" then (s, []) else
    match mapGet s.chats chatId with
    | none => (s, [])
    | some chat =>
      if userId ∈ chat.participants then
        match mapGet s.users userId with
        | none => (s, [])
        | some user =>
          let message : Message :=
            { id := msgId, text := text, senderId := userId, senderName := user.name,
              senderAvatar := user.avatar, timestamp := now, chatId := chatId }
          let msgs0 := chat.messages ++ [message]
          let msgs := if msgs0.length > 1000 then msgs0.drop (msgs0.length - 100) else msgs0
          let fanout := chat.participants.foldl (deliverStep s userId chatId message)
            ([], chat.unreadCount)
          let chat' : Chat :=
            { chat with
                messages := msgs
                updatedAt := now
                lastMessage := some message
                unreadCount := fanout.2 }
          ({ s with chats := mapSet s.chats chatId chat' }, fanout.1)
      else (s, [])

/-- `GET /api/chats/:chatId/messages` (lines 589-612): the read-history /
markRead path.  Returns the last 100 messages and resets `unreadCount`. -/
def handleGetMessages (s : ServerState) (userId : UserId) (chatId : ChatId) :
    ServerState × Option (List Message) :=
  match mapGet s.chats chatId with
  | none => (s, none)
  | some chat =>
    if userId ∈ chat.participants then
      ({ s with chats := mapSet s.chats chatId { chat with unreadCount := 0 } },
       some (chat.messages.drop (chat.messages.length - 100)))
    else (s, none)

/-- Friend list of a user as read through the map (`friendships.get(u)`,
empty when the key is absent). -/
def friendsOfM (fr : List (UserId × List UserId)) (u : UserId) : List UserId :=
  (mapGet fr u).getD []

/-- `if (!this.friendships.has(k)) this.friendships.set(k, new Set())`. -/
def ensureKey (fr : List (UserId × List UserId)) (k : UserId) : List (UserId × List UserId) :=
  if (mapGet fr k).isSome then fr else mapSet fr k []

/-- The friendship mutation of the accept route (lines 403-407): ensure both
keys, then `get(a).add(b)` and `get(b).add(a)`. -/
def addFriendEdge (fr : List (UserId × List UserId)) (a b : UserId) :
    List (UserId × List UserId) :=
  let fr1 := ensureKey (ensureKey fr a) b
  let fr2 := mapSet fr1 a (setAdd (friendsOfM fr1 a) b)
  mapSet fr2 b (setAdd (friendsOfM fr2 b) a)

/-- `if (friendships.has(a)) friendships.get(a).delete(b)`. -/
def removeEdgeDir (fr : List (UserId × List UserId)) (a b : UserId) :
    List (UserId × List UserId) :=
  match mapGet fr a with
  | some l => mapSet fr a (l.erase b)
  | none => fr

/-- `notifyFriendsStatusChange` (lines 980-996): emit `friend_status_changed`
to every friend of the user that has a live socket. -/
def notifyFriendsStatusChange (s : ServerState) (userId : UserId) (status : String) :
    List Event :=
  match mapGet s.users userId with
  | none => []
  | some user =>
    (friendsOfM s.friendships userId).filterMap (fun friendId =>
      (getSocketByUserId s friendId).map (fun fsid =>
        Event.friendStatusChanged fsid userId user.name status user.lastSeen))

/-- `sendUserDataToSocket` (lines 998-1061): three read-only emissions. -/
def sendUserDataEvents (sid : SocketId) : List Event :=
  [Event.friendsList sid, Event.friendRequestsList sid, Event.chatsList sid]

/-- v1 `socket.on('authenticate', ...)` (lines 631-658).  `tokenUser` is the
userId carried by the JWT when verification succeeds (`none` = invalid
token).  On success for a known user: map the socket, set the stored status
to online, notify connected friends, emit `authenticated` and the user data. -/
def handleAuthenticate (s : ServerState) (sid : SocketId) (tokenUser : Option UserId)
    (now : Nat) : ServerState × List Event :=
  match tokenUser with
  | none => (s, [Event.authError sid])
  | some userId =>
    match mapGet s.users userId with
    | none => (s, [])
    | some user =>
      let user' := { user with status := "online", lastSeen := now }
      let s' : ServerState :=
        { s with
            socketUsers := mapSet s.socketUsers sid userId
            users := mapSet s.users userId user' }
      (s', notifyFriendsStatusChange s' userId "online"
             ++ [Event.authenticated sid] ++ sendUserDataEvents sid)

/-- v1 `socket.on('disconnect', ...)` (lines 805-822): drop the socket
mapping, set the stored status to offline, notify connected friends. -/
def handleDisconnect (s : ServerState) (sid : SocketId) (now : Nat) :
    ServerState × List Event :=
  match mapGet s.socketUsers sid with
  | none => (s, [])
  | some userId =>
    let su' := mapDelete s.socketUsers sid
    match mapGet s.users userId with
    | none => ({ s with socketUsers := su' }, [])
    | some user =>
      let user' := { user with status := "offline", lastSeen := now }
      let s' : ServerState :=
        { s with socketUsers := su', users := mapSet s.users userId user' }
      (s', notifyFriendsStatusChange s' userId "offline")

/-- `createChatBetweenUsers` (lines 927-965): create-or-reuse the private
chat keyed by either ordering of the pair, seeding a new chat with one
greeting message authored by `userId1`. -/
def createChatBetweenUsers (s : ServerState) (userId1 userId2 : UserId) (now : Nat) :
    ServerState × Option ChatId :=
  let chatId := "chat_" ++ userId1 ++ "_" ++ userId2
  let reverseChatId := "chat_" ++ userId2 ++ "_" ++ userId1
  match (mapGet s.chats chatId).orElse (fun _ => mapGet s.chats reverseChatId) with
  | some existingChat => (s, some existingChat.id)
  | none =>
    match mapGet s.users userId1, mapGet s.users userId2 with
    | some user1, some user2 =>
      let welcome : Message :=
        { id := "welcome_msg"
          text := "Привет! Я " ++ user1.name ++ ". Давайте общаться! 😊"
          senderId := userId1, senderName := user1.name, senderAvatar := user1.avatar
          timestamp := now, chatId := chatId }
      let newChat : Chat :=
        { id := chatId, name := user2.name, chatType := "private"
          participants := [userId1, userId2], messages := [welcome]
          unreadCount := 0, createdAt := now, updatedAt := now
          lastMessage := some welcome }
      ({ s with chats := mapSet s.chats chatId newChat }, some chatId)
    | _, _ => (s, none)

/-- `POST /api/friends/requests/:requestId/accept` (lines 384-436).
`userId` is the authenticated `req.userId`. -/
def handleAcceptRequest (s : ServerState) (userId : UserId) (requestId : String)
    (now : Nat) : ServerState × List Event :=
  let requests := (mapGet s.friendRequests userId).getD []
  match requests.find? (fun r => r.id = requestId ∧ r.status = "pending") with
  | none => (s, [])
  | some request =>
    let request' := { request with status := "accepted", respondedAt := some now }
    let requests' := replaceFirst requests
      (fun r => r.id = requestId ∧ r.status = "pending") request'
    let s1 : ServerState :=
      { s with
          friendRequests := mapSet s.friendRequests userId requests'
          friendships := addFriendEdge s.friendships userId request.fromUserId }
    let notifyEvents :=
      match getSocketByUserId s1 request.fromUserId with
      | some fsid => [Event.friendRequestAccepted fsid userId]
      | none => []
    ((createChatBetweenUsers s1 userId request.fromUserId now).1, notifyEvents)

/-- `POST /api/friends/requests/:requestId/reject` (lines 439-464). -/
def handleRejectRequest (s : ServerState) (userId : UserId) (requestId : String)
    (now : Nat) : ServerState :=
  let requests := (mapGet s.friendRequests userId).getD []
  match requests.find? (fun r => r.id = requestId ∧ r.status = "pending") with
  | none => s
  | some request =>
    let request' := { request with status := "rejected", respondedAt := some now }
    { s with
        friendRequests := mapSet s.friendRequests userId
          (replaceFirst requests (fun r => r.id = requestId ∧ r.status = "pending") request') }

/-- `DELETE /api/friends/:friendId` (lines 467-493): delete both directions
of the edge when the respective keys exist. -/
def handleRemoveFriend (s : ServerState) (userId friendId : UserId) : ServerState :=
  { s with friendships := removeEdgeDir (removeEdgeDir s.friendships userId friendId) friendId userId }

/-- `POST /api/friends/request` (lines 272-349). -/
def handleSendFriendRequest (s : ServerState) (currentUserId : UserId)
    (friendEmail : String) (now : Nat) : ServerState × List Event :=
  if friendEmail = "" then (s, []) else
  if (mapGet s.users currentUserId).map (fun u => u.email) = some friendEmail then (s, []) else
  match s.users.find? (fun p => p.2.email = friendEmail) with
  | none => (s, [])
  | some entry =>
    let friendUser := entry.2
    if friendUser.id ∈ friendsOfM s.friendships currentUserId then (s, []) else
    if ((mapGet s.friendRequests friendUser.id).getD []).any
        (fun r => r.fromUserId = currentUserId ∧ r.status = "pending") then (s, []) else
    let requestId := "friend_req_" ++ toString now
    let request : FriendRequest :=
      { id := requestId, fromUserId := currentUserId, toUserId := friendUser.id
        status := "pending", createdAt := now, respondedAt := none }
    let frm := if (mapGet s.friendRequests friendUser.id).isSome then s.friendRequests
               else mapSet s.friendRequests friendUser.id []
    let frm' := mapSet frm friendUser.id ((mapGet frm friendUser.id).getD [] ++ [request])
    let events :=
      match getSocketByUserId s friendUser.id with
      | some fsid => [Event.friendRequestEvt fsid requestId currentUserId]
      | none => []
    ({ s with friendRequests := frm' }, events)

/-- v1 `socket.on('start_call', ...)` (lines 710-757).  The generated
`callId` is `'call_' + Date.now()`.  Emits `incoming_call` to every other
connected chat participant, then `call_started` back to the caller. -/
def handleStartCall (s : ServerState) (sid : SocketId) (chatId : ChatId)
    (callType : Option String) (now : Nat) : ServerState × List Event :=
  match mapGet s.socketUsers sid with
  | none => (s, [])
  | some userId =>
    if chatId = "" then (s, []) else
    match mapGet s.chats chatId with
    | none => (s, [])
    | some chat =>
      if userId ∈ chat.participants then
        match mapGet s.users userId with
        | none => (s, [])
        | some user =>
          let callId := "call_" ++ toString now
          let callData : Call :=
            { id := callId, chatId := chatId, callerId := userId, callerName := user.name
              callType := jsOr callType "voice", participants := [userId]
              status := "calling", startTime := now }
          let events := chat.participants.filterMap (fun pid =>
            if pid ≠ userId then
              (getSocketByUserId s pid).map (fun psid =>
                Event.incomingCall psid callId chatId user.name callData.callType)
            else none)
          ({ s with activeCalls := mapSet s.activeCalls callId callData },
           events ++ [Event.callStarted sid callId callData])
      else (s, [])

/-- v1 `socket.on('accept_call', ...)` (lines 760-778): push the acting user
onto the participants, set status active, `io.emit` (a broadcast to every
connected session) `call_accepted` with the mutated call data. -/
def handleAcceptCall (s : ServerState) (sid : SocketId) (callId : CallId) :
    ServerState × List Event :=
  match mapGet s.socketUsers sid with
  | none => (s, [])
  | some userId =>
    if callId = "" then (s, []) else
    match mapGet s.activeCalls callId with
    | none => (s, [])
    | some callData =>
      let callData' := { callData with participants := callData.participants ++ [userId]
                                       status := "active" }
      ({ s with activeCalls := mapSet s.activeCalls callId callData' },
       [Event.callAcceptedBroadcast callId userId callData'])

/-- v1 `socket.on('end_call', ...)` (lines 781-802): emit `call_ended` with
`Math.floor((now - startTime) / 1000)` to every recorded participant with a
live socket, then delete the record. -/
def handleEndCall (s : ServerState) (callId : CallId) (now : Nat) :
    ServerState × List Event :=
  if callId = "" then (s, []) else
  match mapGet s.activeCalls callId with
  | none => (s, [])
  | some callData =>
    let events := callData.participants.filterMap (fun pid =>
      (getSocketByUserId s pid).map (fun psid =>
        Event.callEnded psid callId (((now : Int) - (callData.startTime : Int)).fdiv 1000)))
    ({ s with activeCalls := mapDelete s.activeCalls callId }, events)

/-- `createDemoChat` (lines 880-925): the group demo chat created at
registration (and for `demo_user_1` at startup). -/
def createDemoChatF (s : ServerState) (userId : UserId) (now : Nat) : ServerState :=
  let chatId := "demo_chat_" ++ userId
  if (mapGet s.chats chatId).isSome then s else
  let mkDemoMsg (i : String) (t : String) (sidr : UserId) (n av : String) (ts : Nat) : Message :=
    { id := i, text := t, senderId := sidr, senderName := n, senderAvatar := av
      timestamp := ts, chatId := chatId }
  let msgs :=
    [ mkDemoMsg "demo_msg_1" "Добро пожаловать в Береста! 🎉" "demo_user_1"
        "Анна Иванова" "А" (now - 86400000)
    , mkDemoMsg "demo_msg_2" "Здесь вы можете общаться с друзьями, совершать звонки и многое другое!"
        "demo_user_2" "Иван Петров" "И" (now - 43200000)
    , mkDemoMsg "demo_msg_3" "Добавляйте друзей по email и начинайте новые беседы! 👋"
        "demo_user_3" "Мария Сидорова" "М" now ]
  let chat : Chat :=
    { id := chatId, name := "Общий чат", chatType := "group"
      participants := dedupFirst ["demo_user_1", "demo_user_2", "demo_user_3", userId]
      messages := msgs, unreadCount := 0, createdAt := now, updatedAt := now
      lastMessage := some (mkDemoMsg "demo_msg_3" "Добавляйте друзей по email и начинайте новые беседы! 👋"
        "demo_user_3" "Мария Сидорова" "М" now) }
  { s with chats := mapSet s.chats chatId chat }

/-- `POST /api/auth/register` (lines 67-135).  `userId` stands for the
generated `'user_' + Date.now() + random` (fresh by construction);
`inputOk` stands for the input-only checks (fields present, password length,
email regex), which involve data the model does not store. -/
def handleRegister (s : ServerState) (userId : UserId) (name email : String)
    (inputOk : Bool) (now : Nat) : ServerState × Bool :=
  if !inputOk then (s, false) else
  if s.users.any (fun p => p.2.email = email) then (s, false) else
  let newUser : User :=
    { id := userId, name := name, email := email
      avatar := (name.take 1).toUpper, status := "offline"
      createdAt := now, lastSeen := now }
  let s' : ServerState :=
    { s with
        users := mapSet s.users userId newUser
        friendships := mapSet s.friendships userId []
        friendRequests := mapSet s.friendRequests userId [] }
  (createDemoChatF s' userId now, true)

/-- `POST /api/auth/login` (lines 138-185).  `passwordOk` abstracts the
bcrypt comparison for the found user. -/
def handleLogin (s : ServerState) (email : String) (passwordOk : Bool) (now : Nat) :
    ServerState × Bool :=
  match s.users.find? (fun p => p.2.email = email) with
  | none => (s, false)
  | some entry =>
    if passwordOk then
      let user' := { entry.2 with status := "online", lastSeen := now }
      ({ s with users := mapSet s.users entry.1 user' }, true)
    else (s, false)

/-- `POST /api/chats` (lines 527-587): explicit chat creation with
participant-set-equality dedup. -/
def handleCreateChat (s : ServerState) (userId : UserId) (name : Option String)
    (participantIds : List UserId) (now : Nat) : ServerState × List Event :=
  let allParticipants := dedupFirst (userId :: participantIds)
  if allParticipants.any (fun p => (mapGet s.users p).isNone) then (s, []) else
  if s.chats.any (fun c =>
      c.2.participants.length = allParticipants.length ∧
      c.2.participants.all (fun p => p ∈ allParticipants)) then (s, []) else
  let chatId := "chat_" ++ toString now
  let chatName := jsOr name (String.intercalate ", "
    ((allParticipants.filter (fun p => p ≠ userId)).map
      (fun p => ((mapGet s.users p).map (fun u => u.name)).getD "")))
  let newChat : Chat :=
    { id := chatId, name := chatName
      chatType := if allParticipants.length > 2 then "group" else "private"
      participants := allParticipants, messages := [], unreadCount := 0
      createdAt := now, updatedAt := now, lastMessage := none }
  ({ s with chats := mapSet s.chats chatId newChat },
   allParticipants.filterMap (fun pid =>
     (getSocketByUserId s pid).map (fun psid => Event.chatCreated psid chatId)))

/-- User record of version 2 (`users : Map<userId, user>` holding the live
`socketId`; the entry is deleted on disconnect). -/
structure UserV2 where
  id : UserId
  name : String
  avatar : String
  socketId : SocketId
deriving DecidableEq, Repr

/-- Chat record of version 2 (no unread counter; `lastMessage` is a text). -/
structure ChatV2 where
  id : ChatId
  name : String
  participants : List UserId
  messages : List Message
  lastMessage : Option String
  createdAt : Nat
deriving DecidableEq, Repr

/-- Call record of version 2 (`activeCalls` keyed by `chatId`). -/
structure CallV2 where
  chatId : ChatId
  caller : String
  callType : String
  status : String
  participants : List UserId
  startTime : Nat
deriving DecidableEq, Repr

/-- The global stores of version 2 (lines 1098-1100). -/
structure ServerStateV2 where
  users : List (UserId × UserV2)
  chats : List (ChatId × ChatV2)
  activeCalls : List (ChatId × CallV2)
deriving DecidableEq, Repr

/-- v2 `getSocketByUserId` (lines 1437-1442): the socket stored on the user
record (live while the user entry exists). -/
def getSocketByUserIdV2 (s2 : ServerStateV2) (userId : UserId) : Option SocketId :=
  (mapGet s2.users userId).map (fun u => u.socketId)

/-- v2 `socket.on('send_message', ...)` (lines 1273-1301): append the raw
payload message, cap the history at the most recent 1000, and deliver to
every connected participant other than `message.senderId`. -/
def handleSendMessageV2 (s2 : ServerStateV2) (message : Message) :
    ServerStateV2 × List Event :=
  match mapGet s2.chats message.chatId with
  | none => (s2, [])
  | some chat =>
    let msgs0 := chat.messages ++ [message]
    let msgs := if msgs0.length > 1000 then msgs0.drop (msgs0.length - 1000) else msgs0
    let chat' := { chat with messages := msgs, lastMessage := some message.text }
    let events := chat.participants.filterMap (fun uid =>
      match getSocketByUserIdV2 s2 uid with
      | some psid => if uid ≠ message.senderId
                     then some (Event.newMessage psid message.chatId message) else none
      | none => none)
    ({ s2 with chats := mapSet s2.chats message.chatId chat' }, events)

/-- v2 `socket.on('start_call', ...)` (lines 1304-1336): the call is keyed by
`chatId`, its participants are the whole chat's participant list, an
`incoming_call{chatId, caller, type}` goes to every connected participant
other than `socket.userId`, and no `call_started` is emitted. -/
def handleStartCallV2 (s2 : ServerStateV2) (actingUser : Option UserId) (chatId : ChatId)
    (caller : Option String) (callType : Option String) (now : Nat) :
    ServerStateV2 × List Event :=
  match mapGet s2.chats chatId with
  | none => (s2, [])
  | some chat =>
    let callData : CallV2 :=
      { chatId := chatId, caller := (caller.getD "Unknown")
        callType := (callType.getD "voice"), status := "calling"
        participants := chat.participants, startTime := now }
    let events := chat.participants.filterMap (fun uid =>
      match getSocketByUserIdV2 s2 uid with
      | some psid => if some uid ≠ actingUser
                     then some (Event.incomingCallV2 psid chatId caller callType) else none
      | none => none)
    ({ s2 with activeCalls := mapSet s2.activeCalls chatId callData }, events)

/-- v2 `socket.on('accept_call', ...)` (lines 1339-1360): set status active
(the participants list is left unchanged, no user is appended) and emit
`call_accepted{chatId, caller}` to every recorded participant with a live
socket. -/
def handleAcceptCallV2 (s2 : ServerStateV2) (chatId : ChatId) :
    ServerStateV2 × List Event :=
  match mapGet s2.activeCalls chatId with
  | none => (s2, [])
  | some callData =>
    let callData' := { callData with status := "active" }
    let events := callData.participants.filterMap (fun uid =>
      (getSocketByUserIdV2 s2 uid).map (fun psid =>
        Event.callAcceptedV2 psid chatId callData.caller))
    ({ s2 with activeCalls := mapSet s2.activeCalls chatId callData' }, events)

/-- v2 `socket.on('end_call', ...)` (lines 1384-1402). -/
def handleEndCallV2 (s2 : ServerStateV2) (chatId : ChatId) (now : Nat) :
    ServerStateV2 × List Event :=
  match mapGet s2.activeCalls chatId with
  | none => (s2, [])
  | some callData =>
    let events := callData.participants.filterMap (fun uid =>
      (getSocketByUserIdV2 s2 uid).map (fun psid =>
        Event.callEndedV2 psid chatId (((now : Int) - (callData.startTime : Int)).fdiv 1000)))
    ({ s2 with activeCalls := mapDelete s2.activeCalls chatId }, events)

/-- The startup instant used for the demo data (`Date.now()` at boot). -/
def demoT0 : Nat := 172800000

/-- A demo user of `createDemoData` (lines 827-878). -/
def mkDemoUser (i n e av st : String) (ls : Nat) : User :=
  { id := i, name := n, email := e, avatar := av, status := st
    createdAt := demoT0, lastSeen := ls }

/-- The v1 state after the constructor ran `createDemoData` (three demo
users, the two symmetric demo friendships, the demo group chat). -/
def initialState : ServerState :=
  let base : ServerState :=
    { users :=
        [ ("demo_user_1", mkDemoUser "demo_user_1" "Анна Иванова" "anna@example.com" "А" "online" demoT0)
        , ("demo_user_2", mkDemoUser "demo_user_2" "Иван Петров" "ivan@example.com" "И" "offline" (demoT0 - 3600000))
        , ("demo_user_3", mkDemoUser "demo_user_3" "Мария Сидорова" "maria@example.com" "М" "online" demoT0) ]
      chats := []
      activeCalls := []
      friendships :=
        [ ("demo_user_1", ["demo_user_2", "demo_user_3"])
        , ("demo_user_2", ["demo_user_1"])
        , ("demo_user_3", ["demo_user_1"]) ]
      friendRequests := [("demo_user_1", []), ("demo_user_2", []), ("demo_user_3", [])]
      socketUsers := [] }
  createDemoChatF base "demo_user_1" demoT0

/-- One state-mutating operation of version 1: each constructor runs the
corresponding handler.  `register` additionally records that the generated
user id is fresh (ids are `'user_' + Date.now() + random`). -/
inductive Step : ServerState → ServerState → Prop where
  | register (s : ServerState) (u : UserId) (name email : String) (ok : Bool) (now : Nat)
      (hu : mapGet s.users u = none) (hf : mapGet s.friendships u = none) :
      Step s (handleRegister s u name email ok now).1
  | login (s : ServerState) (email : String) (ok : Bool) (now : Nat) :
      Step s (handleLogin s email ok now).1
  | sendFriendRequest (s : ServerState) (uid : UserId) (email : String) (now : Nat) :
      Step s (handleSendFriendRequest s uid email now).1
  | acceptRequest (s : ServerState) (uid : UserId) (rid : String) (now : Nat) :
      Step s (handleAcceptRequest s uid rid now).1
  | rejectRequest (s : ServerState) (uid : UserId) (rid : String) (now : Nat) :
      Step s (handleRejectRequest s uid rid now)
  | removeFriend (s : ServerState) (uid fid : UserId) :
      Step s (handleRemoveFriend s uid fid)
  | createChat (s : ServerState) (uid : UserId) (name : Option String)
      (pids : List UserId) (now : Nat) :
      Step s (handleCreateChat s uid name pids now).1
  | getMessages (s : ServerState) (uid : UserId) (cid : ChatId) :
      Step s (handleGetMessages s uid cid).1
  | authenticate (s : ServerState) (sid : SocketId) (tok : Option UserId) (now : Nat) :
      Step s (handleAuthenticate s sid tok now).1
  | sendMessage (s : ServerState) (sid : SocketId) (cid : ChatId) (text : String)
      (now : Nat) (mid : String) :
      Step s (handleSendMessage s sid cid text now mid).1
  | startCall (s : ServerState) (sid : SocketId) (cid : ChatId) (ty : Option String) (now : Nat) :
      Step s (handleStartCall s sid cid ty now).1
  | acceptCall (s : ServerState) (sid : SocketId) (cid : CallId) :
      Step s (handleAcceptCall s sid cid).1
  | endCall (s : ServerState) (cid : CallId) (now : Nat) :
      Step s (handleEndCall s cid now).1
  | disconnect (s : ServerState) (sid : SocketId) (now : Nat) :
      Step s (handleDisconnect s sid now).1

/-- States of the version-1 server reachable from the demo-seeded start. -/
inductive Reachable : ServerState → Prop where
  | init : Reachable initialState
  | step {s s' : ServerState} : Reachable s → Step s s' → Reachable s'

/-- `b` is recorded as a friend of `a`. -/
def isFriend (s : ServerState) (a b : UserId) : Prop :=
  b ∈ friendsOfM s.friendships a

theorem mapGet_mapSet {κ α : Type} [DecidableEq κ] (m : List (κ × α)) (k k' : κ) (v : α) :
    mapGet (mapSet m k v) k' = if k = k' then some v else mapGet m k' := by
  induction m with
  | nil =>
    by_cases h : k = k' <;> simp [mapSet, mapGet, h]
  | cons hd tl ih =>
    obtain ⟨a, b⟩ := hd
    by_cases hak : a = k
    · subst hak
      by_cases h : a = k' <;> simp [mapSet, mapGet, h]
    · by_cases h : a = k'
      · subst h
        simp [mapSet, mapGet, hak, Ne.symm hak]
      · simp [mapSet, mapGet, hak, h, ih]

theorem mapGet_mem {κ α : Type} [DecidableEq κ] {m : List (κ × α)} {k : κ} {v : α}
    (h : mapGet m k = some v) : (k, v) ∈ m := by
  induction m with
  | nil => simp [mapGet] at h
  | cons hd tl ih =>
    obtain ⟨a, b⟩ := hd
    by_cases hak : a = k
    · subst hak
      simp [mapGet] at h
      subst h
      exact List.mem_cons_self _ _
    · simp [mapGet, hak] at h
      exact List.mem_cons_of_mem _ (ih h)

theorem mem_setAdd {α : Type} [DecidableEq α] (l : List α) (x y : α) :
    y ∈ setAdd l x ↔ y ∈ l ∨ y = x := by
  by_cases h : x ∈ l
  · simp only [setAdd, if_pos h]
    constructor
    · exact Or.inl
    · rintro (hy | rfl) <;> assumption
  · simp [setAdd, if_neg h]

theorem nodup_setAdd {α : Type} [DecidableEq α] (l : List α) (x : α) (h : l.Nodup) :
    (setAdd l x).Nodup := by
  by_cases hx : x ∈ l
  · simpa [setAdd, hx] using h
  · simp only [setAdd, if_neg hx]
    simpa [List.nodup_append] using ⟨h, fun hmem => hx hmem⟩

theorem friendsOfM_mapSet (fr : List (UserId × List UserId)) (k x : UserId) (v : List UserId) :
    friendsOfM (mapSet fr k v) x = if k = x then v else friendsOfM fr x := by
  unfold friendsOfM
  rw [mapGet_mapSet]
  by_cases h : k = x <;> simp [h]

theorem friendsOfM_ensureKey (fr : List (UserId × List UserId)) (k x : UserId) :
    friendsOfM (ensureKey fr k) x = friendsOfM fr x := by
  unfold ensureKey
  by_cases h : (mapGet fr k).isSome
  · simp [h]
  · rw [if_neg h, friendsOfM_mapSet]
    by_cases hkx : k = x
    · subst hkx
      simp only [Option.isSome] at h
      unfold friendsOfM
      cases hm : mapGet fr k with
      | none => simp
      | some l => rw [hm] at h; simp at h
    · simp [hkx]

/-- Pointwise description of the accept route's friendship mutation. -/
theorem friendsOfM_addFriendEdge (fr : List (UserId × List UserId)) (a b x : UserId) :
    friendsOfM (addFriendEdge fr a b) x =
      if b = x then setAdd (if a = b then setAdd (friendsOfM fr a) b else friendsOfM fr b) a
      else if a = x then setAdd (friendsOfM fr a) b
      else friendsOfM fr x := by
  unfold addFriendEdge
  simp only [friendsOfM_mapSet, friendsOfM_ensureKey]

/-- The fold of the v1 delivery loop adds one unread per offline participant
other than the sender. -/
theorem deliverStep_foldl_unread (s : ServerState) (sender : UserId) (chatId : ChatId)
    (message : Message) (ps : List UserId) (evs : List Event) (n : Nat) :
    (ps.foldl (deliverStep s sender chatId message) (evs, n)).2 =
      n + (ps.filter (fun p => (getSocketByUserId s p).isNone ∧ p ≠ sender)).length := by
  induction ps generalizing evs n with
  | nil => simp
  | cons p ps ih =>
    simp only [List.foldl_cons, List.filter_cons]
    cases hp : getSocketByUserId s p with
    | some psid =>
      simp [deliverStep, hp, ih]
    | none =>
      by_cases hps : p = sender
      · subst hps
        simp [deliverStep, hp, ih]
      · simp only [deliverStep, hp]
        rw [if_pos hps, ih]
        simp [hps]
        omega

/-- The fold of the v1 delivery loop emits exactly one `new_message` per
participant with a live socket, in participant order. -/
theorem deliverStep_foldl_events (s : ServerState) (sender : UserId) (chatId : ChatId)
    (message : Message) (ps : List UserId) (evs : List Event) (n : Nat) :
    (ps.foldl (deliverStep s sender chatId message) (evs, n)).1 =
      evs ++ ps.filterMap (fun p =>
        (getSocketByUserId s p).map (fun psid => Event.newMessage psid chatId message)) := by
  induction ps generalizing evs n with
  | nil => simp
  | cons p ps ih =>
    simp only [List.foldl_cons, List.filterMap_cons]
    cases hp : getSocketByUserId s p with
    | some psid =>
      simp [deliverStep, hp, ih]
    | none =>
      by_cases hps : p = sender
      · subst hps
        simp [deliverStep, hp, ih]
      · simp [deliverStep, hp, hps, ih]

/-- The friend graph is symmetric: `edge(a,b)` exists iff `edge(b,a)` does. -/
def SymFr (fr : List (UserId × List UserId)) : Prop :=
  ∀ a b, b ∈ friendsOfM fr a ↔ a ∈ friendsOfM fr b

/-- Every friend list is duplicate-free (JS `Set` semantics). -/
def NodupFr (fr : List (UserId × List UserId)) : Prop :=
  ∀ u, (friendsOfM fr u).Nodup

/-- Both friend-graph invariants together. -/
def InvFr (fr : List (UserId × List UserId)) : Prop :=
  SymFr fr ∧ NodupFr fr

/-- Executable symmetry check over the finitely many recorded edges. -/
def symCheck (fr : List (UserId × List UserId)) : Bool :=
  fr.all (fun e => e.2.all (fun b => decide (e.1 ∈ friendsOfM fr b)))

/-- Executable duplicate-freedom check. -/
def nodupCheck (fr : List (UserId × List UserId)) : Bool :=
  fr.all (fun e => decide e.2.Nodup)

theorem symCheck_symFr {fr : List (UserId × List UserId)} (h : symCheck fr = true) :
    SymFr fr := by
  have key : ∀ a b, b ∈ friendsOfM fr a → a ∈ friendsOfM fr b := by
    intro a b hb
    unfold friendsOfM at hb
    cases hm : mapGet fr a with
    | none => rw [hm] at hb; simp at hb
    | some la =>
      rw [hm] at hb
      simp only [Option.getD_some] at hb
      have hmem := mapGet_mem hm
      unfold symCheck at h
      rw [List.all_eq_true] at h
      have h2 := h _ hmem
      rw [List.all_eq_true] at h2
      have h3 := h2 _ hb
      simpa using h3
  intro a b
  exact ⟨key a b, key b a⟩

theorem nodupCheck_nodupFr {fr : List (UserId × List UserId)} (h : nodupCheck fr = true) :
    NodupFr fr := by
  intro u
  unfold friendsOfM
  cases hm : mapGet fr u with
  | none => simp
  | some l =>
    have hmem := mapGet_mem hm
    unfold nodupCheck at h
    rw [List.all_eq_true] at h
    have h2 := h _ hmem
    simpa using h2

theorem symFr_addFriendEdge {fr : List (UserId × List UserId)} (h : SymFr fr) (a b : UserId) :
    SymFr (addFriendEdge fr a b) := by
  intro x y
  rw [friendsOfM_addFriendEdge, friendsOfM_addFriendEdge]
  have h1 := h x y
  have h2 := h a y
  have h3 := h b y
  have h4 := h a x
  have h5 := h b x
  by_cases hbx : b = x <;> by_cases hax : a = x <;> by_cases hby : b = y <;>
    by_cases hay : a = y <;> by_cases hab : a = b <;>
    simp_all [mem_setAdd] <;> tauto

theorem nodupFr_addFriendEdge {fr : List (UserId × List UserId)} (h : NodupFr fr)
    (a b : UserId) : NodupFr (addFriendEdge fr a b) := by
  intro u
  rw [friendsOfM_addFriendEdge]
  split
  · split
    · exact nodup_setAdd _ _ (nodup_setAdd _ _ (h a))
    · exact nodup_setAdd _ _ (h b)
  · split
    · exact nodup_setAdd _ _ (h a)
    · exact h u

theorem mem_erase_nodup {l : List UserId} (hl : l.Nodup) (y c : UserId) :
    y ∈ l.erase c ↔ y ∈ l ∧ y ≠ c := by
  rw [hl.mem_erase_iff]
  tauto

theorem friendsOfM_removeEdgeDir (fr : List (UserId × List UserId)) (a b x : UserId) :
    friendsOfM (removeEdgeDir fr a b) x =
      if a = x then (friendsOfM fr a).erase b else friendsOfM fr x := by
  unfold removeEdgeDir
  cases hm : mapGet fr a with
  | none =>
    by_cases hax : a = x
    · subst hax
      simp [friendsOfM, hm]
    · simp [hax]
  | some l =>
    rw [friendsOfM_mapSet]
    by_cases hax : a = x
    · subst hax
      simp [friendsOfM, hm]
    · simp [hax]

/-- Membership after the unfriend route's double deletion: the pair
`(a, b)` is gone in both directions, everything else survives. -/
theorem mem_friendsOfM_removeBoth {fr : List (UserId × List UserId)} (hn : NodupFr fr)
    (a b x y : UserId) :
    (y ∈ friendsOfM (removeEdgeDir (removeEdgeDir fr a b) b a) x) ↔
      (y ∈ friendsOfM fr x ∧ ¬(x = a ∧ y = b) ∧ ¬(x = b ∧ y = a)) := by
  simp only [friendsOfM_removeEdgeDir]
  by_cases hbx : b = x
  · subst hbx
    by_cases hab : a = b
    · subst hab
      rw [if_pos rfl, if_pos rfl,
          mem_erase_nodup ((hn a).erase a) y a, mem_erase_nodup (hn a) y a]
      tauto
    · have hba : b ≠ a := fun h => hab h.symm
      rw [if_pos rfl, if_neg hab, mem_erase_nodup (hn b) y a]
      tauto
  · by_cases hax : a = x
    · subst hax
      have hab2 : a ≠ b := fun h => hbx h.symm
      rw [if_neg hbx, if_pos rfl, mem_erase_nodup (hn a) y b]
      tauto
    · have hxa : x ≠ a := fun h => hax h.symm
      have hxb : x ≠ b := fun h => hbx h.symm
      rw [if_neg hbx, if_neg hax]
      tauto

theorem symFr_removeBoth {fr : List (UserId × List UserId)} (hs : SymFr fr) (hn : NodupFr fr)
    (a b : UserId) : SymFr (removeEdgeDir (removeEdgeDir fr a b) b a) := by
  intro x y
  rw [mem_friendsOfM_removeBoth hn, mem_friendsOfM_removeBoth hn, hs x y]
  tauto

theorem nodupFr_removeBoth {fr : List (UserId × List UserId)} (hn : NodupFr fr)
    (a b : UserId) : NodupFr (removeEdgeDir (removeEdgeDir fr a b) b a) := by
  intro u
  simp only [friendsOfM_removeEdgeDir]
  split
  · split
    · exact ((hn a).erase b).erase a
    · exact (hn _).erase a
  · split
    · exact (hn a).erase b
    · exact hn u

theorem symFr_freshEmpty {fr : List (UserId × List UserId)} (hs : SymFr fr) (u : UserId)
    (hf : mapGet fr u = none) : SymFr (mapSet fr u []) := by
  intro x y
  rw [friendsOfM_mapSet, friendsOfM_mapSet]
  have hu : friendsOfM fr u = [] := by simp [friendsOfM, hf]
  have h1 := hs x y
  have h2 := hs u y
  have h3 := hs u x
  by_cases hux : u = x <;> by_cases huy : u = y <;> simp_all

theorem nodupFr_freshEmpty {fr : List (UserId × List UserId)} (hn : NodupFr fr) (u : UserId) :
    NodupFr (mapSet fr u []) := by
  intro x
  rw [friendsOfM_mapSet]
  split
  · exact List.nodup_nil
  · exact hn x

theorem createDemoChatF_friendships (s : ServerState) (u : UserId) (now : Nat) :
    (createDemoChatF s u now).friendships = s.friendships := by
  simp only [createDemoChatF]
  split <;> rfl

theorem createChatBetweenUsers_friendships (s : ServerState) (u1 u2 : UserId) (now : Nat) :
    ((createChatBetweenUsers s u1 u2 now).1).friendships = s.friendships := by
  simp only [createChatBetweenUsers]
  repeat' split
  all_goals rfl

theorem handleRegister_friendships (s : ServerState) (u : UserId) (name email : String)
    (ok : Bool) (now : Nat) :
    ((handleRegister s u name email ok now).1).friendships = s.friendships ∨
      ((handleRegister s u name email ok now).1).friendships = mapSet s.friendships u [] := by
  simp only [handleRegister]
  split
  · exact Or.inl rfl
  · split
    · exact Or.inl rfl
    · right
      rw [createDemoChatF_friendships]

theorem handleLogin_friendships (s : ServerState) (email : String) (ok : Bool) (now : Nat) :
    ((handleLogin s email ok now).1).friendships = s.friendships := by
  simp only [handleLogin]
  repeat' split
  all_goals rfl

theorem handleSendFriendRequest_friendships (s : ServerState) (uid : UserId) (email : String)
    (now : Nat) :
    ((handleSendFriendRequest s uid email now).1).friendships = s.friendships := by
  simp only [handleSendFriendRequest]
  repeat' split
  all_goals rfl

theorem handleAcceptRequest_friendships (s : ServerState) (uid : UserId) (rid : String)
    (now : Nat) :
    ((handleAcceptRequest s uid rid now).1).friendships = s.friendships ∨
      ∃ fromId, ((handleAcceptRequest s uid rid now).1).friendships =
        addFriendEdge s.friendships uid fromId := by
  simp only [handleAcceptRequest]
  split
  · exact Or.inl rfl
  · rename_i req _
    right
    refine ⟨req.fromUserId, ?_⟩
    rw [createChatBetweenUsers_friendships]

theorem handleRejectRequest_friendships (s : ServerState) (uid : UserId) (rid : String)
    (now : Nat) :
    (handleRejectRequest s uid rid now).friendships = s.friendships := by
  simp only [handleRejectRequest]
  repeat' split
  all_goals rfl

theorem handleCreateChat_friendships (s : ServerState) (uid : UserId) (name : Option String)
    (pids : List UserId) (now : Nat) :
    ((handleCreateChat s uid name pids now).1).friendships = s.friendships := by
  simp only [handleCreateChat]
  repeat' split
  all_goals rfl

theorem handleGetMessages_friendships (s : ServerState) (uid : UserId) (cid : ChatId) :
    ((handleGetMessages s uid cid).1).friendships = s.friendships := by
  simp only [handleGetMessages]
  repeat' split
  all_goals rfl

theorem handleAuthenticate_friendships (s : ServerState) (sid : SocketId)
    (tok : Option UserId) (now : Nat) :
    ((handleAuthenticate s sid tok now).1).friendships = s.friendships := by
  simp only [handleAuthenticate]
  repeat' split
  all_goals rfl

theorem handleSendMessage_friendships (s : ServerState) (sid : SocketId) (cid : ChatId)
    (text : String) (now : Nat) (mid : String) :
    ((handleSendMessage s sid cid text now mid).1).friendships = s.friendships := by
  simp only [handleSendMessage]
  repeat' split
  all_goals rfl

theorem handleStartCall_friendships (s : ServerState) (sid : SocketId) (cid : ChatId)
    (ty : Option String) (now : Nat) :
    ((handleStartCall s sid cid ty now).1).friendships = s.friendships := by
  simp only [handleStartCall]
  repeat' split
  all_goals rfl

theorem handleAcceptCall_friendships (s : ServerState) (sid : SocketId) (cid : CallId) :
    ((handleAcceptCall s sid cid).1).friendships = s.friendships := by
  simp only [handleAcceptCall]
  repeat' split
  all_goals rfl

theorem handleEndCall_friendships (s : ServerState) (cid : CallId) (now : Nat) :
    ((handleEndCall s cid now).1).friendships = s.friendships := by
  simp only [handleEndCall]
  repeat' split
  all_goals rfl

theorem handleDisconnect_friendships (s : ServerState) (sid : SocketId) (now : Nat) :
    ((handleDisconnect s sid now).1).friendships = s.friendships := by
  simp only [handleDisconnect]
  repeat' split
  all_goals rfl

/-- The friend-graph invariant (symmetry plus set semantics) holds in every
reachable state of version 1. -/
theorem reachable_invFr {s : ServerState} (h : Reachable s) : InvFr s.friendships := by
  induction h with
  | init =>
    constructor
    · exact symCheck_symFr (by decide)
    · exact nodupCheck_nodupFr (by decide)
  | step hr hstep ih =>
    obtain ⟨ihs, ihn⟩ := ih
    cases hstep with
    | register u name email ok now hu hf =>
      rcases handleRegister_friendships _ u name email ok now with heq | heq <;> rw [heq]
      · exact ⟨ihs, ihn⟩
      · exact ⟨symFr_freshEmpty ihs u hf, nodupFr_freshEmpty ihn u⟩
    | login email ok now =>
      rw [handleLogin_friendships]; exact ⟨ihs, ihn⟩
    | sendFriendRequest uid email now =>
      rw [handleSendFriendRequest_friendships]; exact ⟨ihs, ihn⟩
    | acceptRequest uid rid now =>
      rcases handleAcceptRequest_friendships _ uid rid now with heq | ⟨fromId, heq⟩ <;> rw [heq]
      · exact ⟨ihs, ihn⟩
      · exact ⟨symFr_addFriendEdge ihs uid fromId, nodupFr_addFriendEdge ihn uid fromId⟩
    | rejectRequest uid rid now =>
      rw [handleRejectRequest_friendships]; exact ⟨ihs, ihn⟩
    | removeFriend uid fid =>
      exact ⟨symFr_removeBoth ihs ihn uid fid, nodupFr_removeBoth ihn uid fid⟩
    | createChat uid name pids now =>
      rw [handleCreateChat_friendships]; exact ⟨ihs, ihn⟩
    | getMessages uid cid =>
      rw [handleGetMessages_friendships]; exact ⟨ihs, ihn⟩
    | authenticate sid tok now =>
      rw [handleAuthenticate_friendships]; exact ⟨ihs, ihn⟩
    | sendMessage sid cid text now mid =>
      rw [handleSendMessage_friendships]; exact ⟨ihs, ihn⟩
    | startCall sid cid ty now =>
      rw [handleStartCall_friendships]; exact ⟨ihs, ihn⟩
    | acceptCall sid cid =>
      rw [handleAcceptCall_friendships]; exact ⟨ihs, ihn⟩
    | endCall cid now =>
      rw [handleEndCall_friendships]; exact ⟨ihs, ihn⟩
    | disconnect sid now =>
      rw [handleDisconnect_friendships]; exact ⟨ihs, ihn⟩

theorem mapSet_length_fresh {κ α : Type} [DecidableEq κ] (m : List (κ × α)) (k : κ) (v : α)
    (h : mapGet m k = none) : (mapSet m k v).length = m.length + 1 := by
  induction m with
  | nil => simp [mapSet]
  | cons hd tl ih =>
    obtain ⟨a, b⟩ := hd
    by_cases hak : a = k
    · subst hak
      simp [mapGet] at h
    · simp [mapGet, hak] at h
      simp [mapSet, hak, ih h]

theorem mapGet_mapDelete_nodup {κ α : Type} [DecidableEq κ] (m : List (κ × α)) (k : κ)
    (h : (m.map Prod.fst).Nodup) : mapGet (mapDelete m k) k = none := by
  induction m with
  | nil => simp [mapDelete, mapGet]
  | cons hd tl ih =>
    obtain ⟨a, b⟩ := hd
    simp only [List.map_cons, List.nodup_cons] at h
    by_cases hak : a = k
    · subst hak
      have hdel : mapDelete ((a, b) :: tl) a = tl := by simp [mapDelete]
      rw [hdel]
      cases hm : mapGet tl a with
      | none => rfl
      | some v =>
        exact absurd (List.mem_map_of_mem Prod.fst (mapGet_mem hm)) h.1
    · simp [mapDelete, mapGet, hak, ih h.2]

/-- A small concrete state for exercising the version-1 handlers:
the demo-seeded start with `demo_user_1` and `demo_user_2` connected. -/
def exS : ServerState :=
  { initialState with socketUsers := [("s1", "demo_user_1"), ("s2", "demo_user_2")] }

/-- The demo group chat record exactly as it sits in `initialState`. -/
def demoChat : Chat :=
  { id := "demo_chat_demo_user_1", name := "Общий чат", chatType := "group"
    participants := ["demo_user_1", "demo_user_2", "demo_user_3"]
    messages :=
      [ { id := "demo_msg_1", text := "Добро пожаловать в Береста! 🎉"
          senderId := "demo_user_1", senderName := "Анна Иванова", senderAvatar := "А"
          timestamp := demoT0 - 86400000, chatId := "demo_chat_demo_user_1" }
      , { id := "demo_msg_2"
          text := "Здесь вы можете общаться с друзьями, совершать звонки и многое другое!"
          senderId := "demo_user_2", senderName := "Иван Петров", senderAvatar := "И"
          timestamp := demoT0 - 43200000, chatId := "demo_chat_demo_user_1" }
      , { id := "demo_msg_3", text := "Добавляйте друзей по email и начинайте новые беседы! 👋"
          senderId := "demo_user_3", senderName := "Мария Сидорова", senderAvatar := "М"
          timestamp := demoT0, chatId := "demo_chat_demo_user_1" } ]
    unreadCount := 0, createdAt := demoT0, updatedAt := demoT0
    lastMessage := some
      { id := "demo_msg_3", text := "Добавляйте друзей по email и начинайте новые беседы! 👋"
        senderId := "demo_user_3", senderName := "Мария Сидорова", senderAvatar := "М"
        timestamp := demoT0, chatId := "demo_chat_demo_user_1" } }

/-- C4: `send_message` with an unknown chat or a non-participant sender is a
silent no-op: the state is returned unchanged and no event is emitted. -/
theorem sendMessage_invalid_silent_noop (s : ServerState) (sid : SocketId) (chatId : ChatId)
    (text : String) (now : Nat) (msgId : String) (sender : UserId)
    (hsid : mapGet s.socketUsers sid = some sender)
    (hbad : mapGet s.chats chatId = none ∨
      ∃ chat, mapGet s.chats chatId = some chat ∧ sender ∉ chat.participants) :
    handleSendMessage s sid chatId text now msgId = (s, []) := by
  simp only [handleSendMessage, hsid]
  by_cases hc : chatId = ""
  · simp [hc]
  · by_cases ht : text = ""
    · simp [hc, ht]
    · rcases hbad with hnone | ⟨chat, hsome, hnp⟩
      · simp [hc, ht, hnone]
      · simp [hc, ht, hsome, hnp]

/-- C4 witness: sending into the unknown chat `"nochat"` from the connected
`demo_user_1` changes nothing and emits nothing. -/
theorem sendMessage_invalid_silent_noop_witness :
    handleSendMessage exS "s1" "nochat" "hi" 5 "m9" = (exS, []) :=
  sendMessage_invalid_silent_noop exS "s1" "nochat" "hi" 5 "m9" "demo_user_1"
    (by decide) (Or.inl (by decide))

/-- C2: a successful `send_message` increases the chat's `unreadCount` by
exactly the number of participants other than the sender that have no live
connection, and any participant's read-history call (`markRead`) resets the
counter to 0. -/
theorem sendMessage_unread_and_markRead :
    (∀ (s : ServerState) (sid : SocketId) (chatId : ChatId) (text : String) (now : Nat)
        (msgId : String) (sender : UserId) (chat : Chat) (user : User),
      mapGet s.socketUsers sid = some sender →
      chatId ≠ "" → text ≠ "" →
      mapGet s.chats chatId = some chat →
      sender ∈ chat.participants →
      mapGet s.users sender = some user →
      ∃ chat', mapGet ((handleSendMessage s sid chatId text now msgId).1).chats chatId = some chat' ∧
        chat'.unreadCount = chat.unreadCount +
          (chat.participants.filter
            (fun p => (getSocketByUserId s p).isNone ∧ p ≠ sender)).length) ∧
    (∀ (s : ServerState) (u : UserId) (chatId : ChatId) (chat : Chat),
      mapGet s.chats chatId = some chat → u ∈ chat.participants →
      ∃ chat', mapGet ((handleGetMessages s u chatId).1).chats chatId = some chat' ∧
        chat'.unreadCount = 0) := by
  constructor
  · intro s sid chatId text now msgId sender chat user hsid hc ht hchat hmem huser
    simp only [handleSendMessage, hsid, if_neg hc, if_neg ht, hchat, if_pos hmem, huser]
    rw [mapGet_mapSet]
    simp only [if_pos rfl, Option.some.injEq]
    exact ⟨_, rfl, deliverStep_foldl_unread s sender chatId _ chat.participants [] chat.unreadCount⟩
  · intro s u chatId chat hchat hmem
    simp only [handleGetMessages, hchat, if_pos hmem]
    rw [mapGet_mapSet]
    simp only [if_pos rfl, Option.some.injEq]
    exact ⟨_, rfl, rfl⟩

/-- C2 witness: in `exS` (participants `demo_user_1..3`, only the first two
connected), a send by `demo_user_1` raises `unreadCount` from 0 by exactly 1
(`demo_user_3` is offline), and a read by `demo_user_3` resets it to 0. -/
theorem sendMessage_unread_and_markRead_witness :
    (∃ chat', mapGet ((handleSendMessage exS "s1" "demo_chat_demo_user_1" "hi" 999 "m1").1).chats
        "demo_chat_demo_user_1" = some chat' ∧
      chat'.unreadCount = (demoChat).unreadCount +
        ((demoChat).participants.filter
          (fun p => (getSocketByUserId exS p).isNone ∧ p ≠ "demo_user_1")).length) ∧
    (∃ chat', mapGet ((handleGetMessages exS "demo_user_3" "demo_chat_demo_user_1").1).chats
        "demo_chat_demo_user_1" = some chat' ∧ chat'.unreadCount = 0) :=
  ⟨sendMessage_unread_and_markRead.1 exS "s1" "demo_chat_demo_user_1" "hi" 999 "m1"
      "demo_user_1" demoChat
      (mkDemoUser "demo_user_1" "Анна Иванова" "anna@example.com" "А" "online" demoT0)
      (by decide) (by decide) (by decide) (by decide) (by decide) (by decide),
   sendMessage_unread_and_markRead.2 exS "demo_user_3" "demo_chat_demo_user_1"
      demoChat (by decide) (by decide)⟩

/-- The history-cap expression keeps exactly `keep` messages when the
append exceeds 1000 entries. -/
theorem cap_long {l : List Message} {m : Message} (keep : Nat)
    (hlong : l.length + 1 > 1000) (hk : keep ≤ 1000) :
    (if (l ++ [m]).length > 1000 then (l ++ [m]).drop ((l ++ [m]).length - keep) else l ++ [m]) =
      (l ++ [m]).drop (l.length + 1 - keep) ∧
    (if (l ++ [m]).length > 1000 then (l ++ [m]).drop ((l ++ [m]).length - keep)
     else l ++ [m]).length = keep := by
  have hlen : (l ++ [m]).length = l.length + 1 := by simp
  rw [hlen, if_pos hlong]
  refine ⟨rfl, ?_⟩
  rw [List.length_drop, hlen]
  omega

/-- The history-cap expression removes nothing when the append stays within
1000 entries. -/
theorem cap_short {l : List Message} {m : Message} (keep : Nat)
    (hshort : l.length + 1 ≤ 1000) :
    (if (l ++ [m]).length > 1000 then (l ++ [m]).drop ((l ++ [m]).length - keep) else l ++ [m]) =
      l ++ [m] := by
  have hlen : (l ++ [m]).length = l.length + 1 := by simp
  rw [hlen, if_neg (by omega)]

/-- C1 (amended): on a successful send, version 1 appends the message and,
when the history length would exceed 1000, compacts it to the most recent
100; version 2 compacts to the most recent 1000; in both versions an append
that does not push the length above 1000 removes nothing. -/
theorem message_history_compaction :
    (∀ (s : ServerState) (sid : SocketId) (chatId : ChatId) (text : String) (now : Nat)
        (msgId : String) (sender : UserId) (chat : Chat) (user : User),
      mapGet s.socketUsers sid = some sender →
      chatId ≠ "" → text ≠ "" →
      mapGet s.chats chatId = some chat →
      sender ∈ chat.participants →
      mapGet s.users sender = some user →
      ∃ chat' m, mapGet ((handleSendMessage s sid chatId text now msgId).1).chats chatId = some chat' ∧
        m.senderId = sender ∧ m.text = text ∧ m.id = msgId ∧
        ((chat.messages.length + 1 > 1000 →
            chat'.messages = (chat.messages ++ [m]).drop (chat.messages.length + 1 - 100) ∧
            chat'.messages.length = 100) ∧
         (chat.messages.length + 1 ≤ 1000 →
            chat'.messages = chat.messages ++ [m]))) ∧
    (∀ (s2 : ServerStateV2) (msg : Message) (chat2 : ChatV2),
      mapGet s2.chats msg.chatId = some chat2 →
      ∃ chat2', mapGet ((handleSendMessageV2 s2 msg).1).chats msg.chatId = some chat2' ∧
        ((chat2.messages.length + 1 > 1000 →
            chat2'.messages = (chat2.messages ++ [msg]).drop (chat2.messages.length + 1 - 1000) ∧
            chat2'.messages.length = 1000) ∧
         (chat2.messages.length + 1 ≤ 1000 →
            chat2'.messages = chat2.messages ++ [msg]))) := by
  constructor
  · intro s sid chatId text now msgId sender chat user hsid hc ht hchat hmem huser
    simp only [handleSendMessage, hsid, if_neg hc, if_neg ht, hchat, if_pos hmem, huser]
    rw [mapGet_mapSet]
    simp only [if_pos rfl, Option.some.injEq]
    refine ⟨_, { id := msgId, text := text, senderId := sender, senderName := user.name,
                 senderAvatar := user.avatar, timestamp := now, chatId := chatId },
            rfl, rfl, rfl, rfl, ?_, ?_⟩
    · intro hlong
      exact cap_long 100 hlong (by omega)
    · intro hshort
      exact cap_short 100 hshort
  · intro s2 msg chat2 hchat
    simp only [handleSendMessageV2, hchat]
    rw [mapGet_mapSet]
    simp only [if_pos rfl, Option.some.injEq]
    refine ⟨_, rfl, ?_, ?_⟩
    · intro hlong
      exact cap_long 1000 hlong (by omega)
    · intro hshort
      exact cap_short 1000 hshort

/-- C1 witness: in `exS`, sending into the demo chat (3 stored messages)
appends without any compaction. -/
theorem message_history_compaction_witness :
    ∃ chat' m, mapGet ((handleSendMessage exS "s1" "demo_chat_demo_user_1" "hi" 999 "m1").1).chats
        "demo_chat_demo_user_1" = some chat' ∧
      m.senderId = "demo_user_1" ∧ m.text = "hi" ∧ m.id = "m1" ∧
      ((demoChat.messages.length + 1 > 1000 →
          chat'.messages = (demoChat.messages ++ [m]).drop (demoChat.messages.length + 1 - 100) ∧
          chat'.messages.length = 100) ∧
       (demoChat.messages.length + 1 ≤ 1000 →
          chat'.messages = demoChat.messages ++ [m])) :=
  message_history_compaction.1 exS "s1" "demo_chat_demo_user_1" "hi" 999 "m1"
    "demo_user_1" demoChat
    (mkDemoUser "demo_user_1" "Анна Иванова" "anna@example.com" "А" "online" demoT0)
    (by decide) (by decide) (by decide) (by decide) (by decide) (by decide)

/-- A version-2 message targeting chat `c1`. -/
def cexMsg : Message :=
  { id := "m0", text := "x", senderId := "A", senderName := "A", senderAvatar := "A"
    timestamp := 0, chatId := "c1" }

/-- A version-2 chat already holding exactly 1000 messages. -/
def cexChatV2 : ChatV2 :=
  { id := "c1", name := "c", participants := ["A", "B"]
    messages := List.replicate 1000 cexMsg, lastMessage := none, createdAt := 0 }

/-- Concrete version-2 state around `cexChatV2`. -/
def cexStateV2 : ServerStateV2 :=
  { users := [], chats := [("c1", cexChatV2)], activeCalls := [] }

set_option maxRecDepth 8000 in
/-- C1 counterexample: in version 2 an append that pushes the history above
1000 leaves 1000 entries, not the 100 the claim states. -/
theorem message_history_compaction_counterexample :
    ∃ chat', mapGet ((handleSendMessageV2 cexStateV2 cexMsg).1).chats "c1" = some chat' ∧
      chat'.messages.length = 1000 ∧ ¬ chat'.messages.length = 100 := by
  have hcid : cexMsg.chatId = "c1" := rfl
  have hchat : mapGet cexStateV2.chats "c1" = some cexChatV2 := rfl
  simp only [handleSendMessageV2, hcid, hchat]
  rw [mapGet_mapSet]
  simp only [if_pos rfl, Option.some.injEq]
  have hmsgs : cexChatV2.messages.length = 1000 := by
    show (List.replicate 1000 cexMsg).length = 1000
    rw [List.length_replicate]
  have hlong : cexChatV2.messages.length + 1 > 1000 := by
    rw [hmsgs]
    omega
  refine ⟨_, rfl, ?_, ?_⟩
  · exact (cap_long 1000 hlong (by omega)).2
  · rw [(cap_long 1000 hlong (by omega)).2]
    decide

/-- C9: the two send-message delivery loops differ exactly in sender echo.
In version 1 a connected sender's own socket receives `new_message` (and so
does every connected participant); in version 2 every connected participant
other than the sender receives it, and every emitted event arises from a
participant different from the sender, so the sender's own entry never
produces a delivery. -/
theorem sender_echo_variant :
    (∀ (s : ServerState) (sid : SocketId) (chatId : ChatId) (text : String) (now : Nat)
        (msgId : String) (sender : UserId) (chat : Chat) (user : User) (ssid : SocketId),
      mapGet s.socketUsers sid = some sender →
      chatId ≠ "" → text ≠ "" →
      mapGet s.chats chatId = some chat →
      sender ∈ chat.participants →
      mapGet s.users sender = some user →
      getSocketByUserId s sender = some ssid →
      ∃ m : Message, m.senderId = sender ∧ m.text = text ∧
        Event.newMessage ssid chatId m ∈ (handleSendMessage s sid chatId text now msgId).2 ∧
        (∀ p psid, p ∈ chat.participants → getSocketByUserId s p = some psid →
          Event.newMessage psid chatId m ∈ (handleSendMessage s sid chatId text now msgId).2)) ∧
    (∀ (s2 : ServerStateV2) (msg : Message) (chat2 : ChatV2),
      mapGet s2.chats msg.chatId = some chat2 →
      ((∀ p psid, p ∈ chat2.participants → p ≠ msg.senderId →
          getSocketByUserIdV2 s2 p = some psid →
          Event.newMessage psid msg.chatId msg ∈ (handleSendMessageV2 s2 msg).2) ∧
       (∀ e, e ∈ (handleSendMessageV2 s2 msg).2 →
          ∃ p psid, p ∈ chat2.participants ∧ p ≠ msg.senderId ∧
            getSocketByUserIdV2 s2 p = some psid ∧
            e = Event.newMessage psid msg.chatId msg))) := by
  constructor
  · intro s sid chatId text now msgId sender chat user ssid hsid hc ht hchat hmem huser hss
    simp only [handleSendMessage, hsid, if_neg hc, if_neg ht, hchat, if_pos hmem, huser]
    rw [deliverStep_foldl_events]
    simp only [List.nil_append]
    refine ⟨{ id := msgId, text := text, senderId := sender, senderName := user.name,
              senderAvatar := user.avatar, timestamp := now, chatId := chatId },
            rfl, rfl, ?_, ?_⟩
    · exact List.mem_filterMap.mpr ⟨sender, hmem, by rw [hss]; rfl⟩
    · intro p psid hp hpsock
      exact List.mem_filterMap.mpr ⟨p, hp, by rw [hpsock]; rfl⟩
  · intro s2 msg chat2 hchat
    simp only [handleSendMessageV2, hchat]
    constructor
    · intro p psid hp hpne hpsock
      refine List.mem_filterMap.mpr ⟨p, hp, ?_⟩
      rw [hpsock]
      simp [hpne]
    · intro e he
      obtain ⟨p, hp, hf⟩ := List.mem_filterMap.mp he
      cases hpsock : getSocketByUserIdV2 s2 p with
      | none => rw [hpsock] at hf; simp at hf
      | some psid =>
        rw [hpsock] at hf
        by_cases hpne : p ≠ msg.senderId
        · simp only [if_pos hpne, Option.some.injEq] at hf
          exact ⟨p, psid, hp, hpne, hpsock, hf.symm⟩
        · simp only [if_neg hpne] at hf
          simp at hf


/-- A small concrete version-2 state: users `A`, `B`, `C` connected on
sockets `sA`, `sB`, `sC`; chat `c2` between `A` and `B`; one ringing call
keyed by `c2`. -/
def exStateV2 : ServerStateV2 :=
  { users :=
      [ ("A", { id := "A", name := "Anna", avatar := "A", socketId := "sA" })
      , ("B", { id := "B", name := "Bob", avatar := "B", socketId := "sB" })
      , ("C", { id := "C", name := "Cid", avatar := "C", socketId := "sC" }) ]
    chats := [("c2",
      { id := "c2", name := "c", participants := ["A", "B"]
        messages := [], lastMessage := none, createdAt := 0 })]
    activeCalls := [("c2",
      { chatId := "c2", caller := "Anna", callType := "voice", status := "calling"
        participants := ["A", "B"], startTime := 1000 })] }

/-- The chat record stored under `c2` in `exStateV2`. -/
def exChatV2 : ChatV2 :=
  { id := "c2", name := "c", participants := ["A", "B"]
    messages := [], lastMessage := none, createdAt := 0 }

/-- The call record stored under `c2` in `exStateV2`. -/
def exCallV2 : CallV2 :=
  { chatId := "c2", caller := "Anna", callType := "voice", status := "calling"
    participants := ["A", "B"], startTime := 1000 }

/-- A version-2 message from `A` into chat `c2`. -/
def exMsgV2 : Message :=
  { id := "m2", text := "yo", senderId := "A", senderName := "Anna", senderAvatar := "A"
    timestamp := 7, chatId := "c2" }

/-- C9 witness: in `exS` the connected sender `demo_user_1` is echoed its
own message in version 1, while in a matching version-2 state every delivery
of the same send bypasses the sender. -/
theorem sender_echo_variant_witness :
    (∃ m : Message, m.senderId = "demo_user_1" ∧ m.text = "hi" ∧
      Event.newMessage "s1" "demo_chat_demo_user_1" m ∈
        (handleSendMessage exS "s1" "demo_chat_demo_user_1" "hi" 999 "m1").2 ∧
      (∀ p psid, p ∈ demoChat.participants → getSocketByUserId exS p = some psid →
        Event.newMessage psid "demo_chat_demo_user_1" m ∈
          (handleSendMessage exS "s1" "demo_chat_demo_user_1" "hi" 999 "m1").2)) ∧
    ((∀ p psid, p ∈ exChatV2.participants → p ≠ exMsgV2.senderId →
        getSocketByUserIdV2 exStateV2 p = some psid →
        Event.newMessage psid exMsgV2.chatId exMsgV2 ∈ (handleSendMessageV2 exStateV2 exMsgV2).2) ∧
     (∀ e, e ∈ (handleSendMessageV2 exStateV2 exMsgV2).2 →
        ∃ p psid, p ∈ exChatV2.participants ∧ p ≠ exMsgV2.senderId ∧
          getSocketByUserIdV2 exStateV2 p = some psid ∧
          e = Event.newMessage psid exMsgV2.chatId exMsgV2)) :=
  ⟨sender_echo_variant.1 exS "s1" "demo_chat_demo_user_1" "hi" 999 "m1" "demo_user_1"
      demoChat (mkDemoUser "demo_user_1" "Анна Иванова" "anna@example.com" "А" "online" demoT0)
      "s1" (by decide) (by decide) (by decide) (by decide) (by decide) (by decide) (by decide),
   sender_echo_variant.2 exStateV2 exMsgV2 exChatV2 (by decide)⟩

theorem addFriendEdge_mem_left (fr : List (UserId × List UserId)) (a b : UserId) :
    b ∈ friendsOfM (addFriendEdge fr a b) a := by
  rw [friendsOfM_addFriendEdge]
  by_cases hba : b = a <;> simp [hba, mem_setAdd]

theorem addFriendEdge_mem_right (fr : List (UserId × List UserId)) (a b : UserId) :
    a ∈ friendsOfM (addFriendEdge fr a b) b := by
  rw [friendsOfM_addFriendEdge]
  simp [mem_setAdd]

theorem handleAcceptRequest_friendships_found {s : ServerState} {uid : UserId} {rid : String}
    {req : FriendRequest} (now : Nat)
    (h : ((mapGet s.friendRequests uid).getD []).find?
        (fun r => r.id = rid ∧ r.status = "pending") = some req) :
    ((handleAcceptRequest s uid rid now).1).friendships =
      addFriendEdge s.friendships uid req.fromUserId := by
  simp only [handleAcceptRequest, h]
  rw [createChatBetweenUsers_friendships]

/-- A state with a pending friend request `r1` from `demo_user_3` addressed
to `demo_user_2`. -/
def exSReq : ServerState :=
  { initialState with
      friendRequests := mapSet initialState.friendRequests "demo_user_2"
        [{ id := "r1", fromUserId := "demo_user_3", toUserId := "demo_user_2"
           status := "pending", createdAt := 1, respondedAt := none }] }

/-- The pending request stored in `exSReq`. -/
def exReq : FriendRequest :=
  { id := "r1", fromUserId := "demo_user_3", toUserId := "demo_user_2"
    status := "pending", createdAt := 1, respondedAt := none }

/-- C3: friendship symmetry is an invariant of every reachable state;
accepting a pending friend request inserts both directions of the edge, and
removing a friend deletes both directions. -/
theorem friendship_symmetry :
    (∀ s : ServerState, Reachable s → ∀ a b, isFriend s a b ↔ isFriend s b a) ∧
    (∀ (s : ServerState) (uid : UserId) (rid : String) (now : Nat) (req : FriendRequest),
      ((mapGet s.friendRequests uid).getD []).find?
          (fun r => r.id = rid ∧ r.status = "pending") = some req →
      isFriend (handleAcceptRequest s uid rid now).1 uid req.fromUserId ∧
      isFriend (handleAcceptRequest s uid rid now).1 req.fromUserId uid) ∧
    (∀ (s : ServerState) (uid fid : UserId), Reachable s →
      ¬ isFriend (handleRemoveFriend s uid fid) uid fid ∧
      ¬ isFriend (handleRemoveFriend s uid fid) fid uid) := by
  refine ⟨?_, ?_, ?_⟩
  · intro s hs a b
    exact (reachable_invFr hs).1 a b
  · intro s uid rid now req hreq
    have hfr := handleAcceptRequest_friendships_found now hreq
    unfold isFriend
    rw [hfr]
    exact ⟨addFriendEdge_mem_left _ _ _, addFriendEdge_mem_right _ _ _⟩
  · intro s uid fid hs
    have hn := (reachable_invFr hs).2
    unfold isFriend handleRemoveFriend
    constructor
    · intro hmem
      rw [mem_friendsOfM_removeBoth hn] at hmem
      exact hmem.2.1 ⟨rfl, rfl⟩
    · intro hmem
      rw [mem_friendsOfM_removeBoth hn] at hmem
      exact hmem.2.2 ⟨rfl, rfl⟩

/-- C3 witness: symmetry at the demo start for the pair
(`demo_user_1`, `demo_user_2`); accepting `r1` in `exSReq` makes
`demo_user_2` and `demo_user_3` friends in both directions; unfriending
`demo_user_1` and `demo_user_2` removes both directions. -/
theorem friendship_symmetry_witness :
    (isFriend initialState "demo_user_1" "demo_user_2" ↔
      isFriend initialState "demo_user_2" "demo_user_1") ∧
    (isFriend (handleAcceptRequest exSReq "demo_user_2" "r1" 50).1 "demo_user_2" exReq.fromUserId ∧
      isFriend (handleAcceptRequest exSReq "demo_user_2" "r1" 50).1 exReq.fromUserId "demo_user_2") ∧
    (¬ isFriend (handleRemoveFriend initialState "demo_user_1" "demo_user_2")
        "demo_user_1" "demo_user_2" ∧
     ¬ isFriend (handleRemoveFriend initialState "demo_user_1" "demo_user_2")
        "demo_user_2" "demo_user_1") :=
  ⟨friendship_symmetry.1 initialState Reachable.init "demo_user_1" "demo_user_2",
   friendship_symmetry.2.1 exSReq "demo_user_2" "r1" 50 exReq (by decide),
   friendship_symmetry.2.2 initialState "demo_user_1" "demo_user_2" Reachable.init⟩

theorem createChatBetweenUsers_reuse (s : ServerState) (u1 u2 : UserId) (now : Nat) (c : Chat)
    (hc : mapGet s.chats ("chat_" ++ u1 ++ "_" ++ u2) = some c) :
    createChatBetweenUsers s u1 u2 now = (s, some c.id) := by
  simp only [createChatBetweenUsers, hc]
  rfl

theorem createChatBetweenUsers_reuse_reverse (s : ServerState) (u1 u2 : UserId) (now : Nat)
    (c : Chat) (hc1 : mapGet s.chats ("chat_" ++ u1 ++ "_" ++ u2) = none)
    (hc2 : mapGet s.chats ("chat_" ++ u2 ++ "_" ++ u1) = some c) :
    createChatBetweenUsers s u1 u2 now = (s, some c.id) := by
  simp only [createChatBetweenUsers, hc1, hc2]
  rfl

/-- C8: `createChatBetweenUsers` reuses a chat keyed by either ordering of
the pair without touching the state; otherwise, for two existing users, it
creates exactly one new private chat with participants `[u1, u2]` seeded
with exactly one greeting message authored by `u1`, and a repeated call then
reuses that chat. -/
theorem createChatBetweenUsers_idempotent :
    ∀ (s : ServerState) (u1 u2 : UserId) (now : Nat),
      (∀ c, mapGet s.chats ("chat_" ++ u1 ++ "_" ++ u2) = some c →
        createChatBetweenUsers s u1 u2 now = (s, some c.id)) ∧
      (mapGet s.chats ("chat_" ++ u1 ++ "_" ++ u2) = none →
        ∀ c, mapGet s.chats ("chat_" ++ u2 ++ "_" ++ u1) = some c →
          createChatBetweenUsers s u1 u2 now = (s, some c.id)) ∧
      (mapGet s.chats ("chat_" ++ u1 ++ "_" ++ u2) = none →
       mapGet s.chats ("chat_" ++ u2 ++ "_" ++ u1) = none →
       ∀ user1 user2, mapGet s.users u1 = some user1 → mapGet s.users u2 = some user2 →
        ∃ newChat,
          (createChatBetweenUsers s u1 u2 now).1.chats =
            mapSet s.chats ("chat_" ++ u1 ++ "_" ++ u2) newChat ∧
          (createChatBetweenUsers s u1 u2 now).1.chats.length = s.chats.length + 1 ∧
          (createChatBetweenUsers s u1 u2 now).2 = some ("chat_" ++ u1 ++ "_" ++ u2) ∧
          newChat.chatType = "private" ∧ newChat.participants = [u1, u2] ∧
          (∃ m, newChat.messages = [m] ∧ m.senderId = u1) ∧
          (∀ now', createChatBetweenUsers (createChatBetweenUsers s u1 u2 now).1 u1 u2 now' =
            ((createChatBetweenUsers s u1 u2 now).1, some ("chat_" ++ u1 ++ "_" ++ u2)))) := by
  intro s u1 u2 now
  refine ⟨?_, ?_, ?_⟩
  · intro c hc
    exact createChatBetweenUsers_reuse s u1 u2 now c hc
  · intro hc1 c hc2
    exact createChatBetweenUsers_reuse_reverse s u1 u2 now c hc1 hc2
  · intro hc1 hc2 user1 user2 hu1 hu2
    have hnone : (mapGet s.chats ("chat_" ++ u1 ++ "_" ++ u2)).orElse
        (fun _ => mapGet s.chats ("chat_" ++ u2 ++ "_" ++ u1)) = none := by
      rw [hc1, hc2]
      rfl
    simp only [createChatBetweenUsers, hnone, hu1, hu2]
    refine ⟨_, rfl, mapSet_length_fresh _ _ _ hc1, trivial, rfl, rfl, ⟨_, rfl, rfl⟩, ?_⟩
    intro now'
    have hm : mapGet (mapSet s.chats ("chat_" ++ u1 ++ "_" ++ u2)
        { id := "chat_" ++ u1 ++ "_" ++ u2, name := user2.name, chatType := "private"
          participants := [u1, u2]
          messages :=
            [{ id := "welcome_msg"
               text := "Привет! Я " ++ user1.name ++ ". Давайте общаться! 😊"
               senderId := u1, senderName := user1.name, senderAvatar := user1.avatar
               timestamp := now, chatId := "chat_" ++ u1 ++ "_" ++ u2 }]
          unreadCount := 0, createdAt := now, updatedAt := now
          lastMessage := some
            { id := "welcome_msg"
              text := "Привет! Я " ++ user1.name ++ ". Давайте общаться! 😊"
              senderId := u1, senderName := user1.name, senderAvatar := user1.avatar
              timestamp := now, chatId := "chat_" ++ u1 ++ "_" ++ u2 } })
        ("chat_" ++ u1 ++ "_" ++ u2) = some
        { id := "chat_" ++ u1 ++ "_" ++ u2, name := user2.name, chatType := "private"
          participants := [u1, u2]
          messages :=
            [{ id := "welcome_msg"
               text := "Привет! Я " ++ user1.name ++ ". Давайте общаться! 😊"
               senderId := u1, senderName := user1.name, senderAvatar := user1.avatar
               timestamp := now, chatId := "chat_" ++ u1 ++ "_" ++ u2 }]
          unreadCount := 0, createdAt := now, updatedAt := now
          lastMessage := some
            { id := "welcome_msg"
              text := "Привет! Я " ++ user1.name ++ ". Давайте общаться! 😊"
              senderId := u1, senderName := user1.name, senderAvatar := user1.avatar
              timestamp := now, chatId := "chat_" ++ u1 ++ "_" ++ u2 } } := by
      rw [mapGet_mapSet]
      simp
    rw [hm]
    rfl

/-- The state after creating the private chat between `demo_user_2` and
`demo_user_3` at time 60. -/
def exSPair : ServerState :=
  (createChatBetweenUsers initialState "demo_user_2" "demo_user_3" 60).1

/-- The private chat record created in `exSPair`. -/
def exPairChat : Chat :=
  { id := "chat_demo_user_2_demo_user_3", name := "Мария Сидорова", chatType := "private"
    participants := ["demo_user_2", "demo_user_3"]
    messages :=
      [{ id := "welcome_msg", text := "Привет! Я Иван Петров. Давайте общаться! 😊"
         senderId := "demo_user_2", senderName := "Иван Петров", senderAvatar := "И"
         timestamp := 60, chatId := "chat_demo_user_2_demo_user_3" }]
    unreadCount := 0, createdAt := 60, updatedAt := 60
    lastMessage := some
      { id := "welcome_msg", text := "Привет! Я Иван Петров. Давайте общаться! 😊"
        senderId := "demo_user_2", senderName := "Иван Петров", senderAvatar := "И"
        timestamp := 60, chatId := "chat_demo_user_2_demo_user_3" } }

/-- C8 witness: a second call under either ordering of the pair reuses the
stored chat unchanged, and the first call created exactly one private chat
seeded with one greeting message authored by `demo_user_2`. -/
theorem createChatBetweenUsers_idempotent_witness :
    (createChatBetweenUsers exSPair "demo_user_2" "demo_user_3" 61 =
      (exSPair, some exPairChat.id)) ∧
    (createChatBetweenUsers exSPair "demo_user_3" "demo_user_2" 62 =
      (exSPair, some exPairChat.id)) ∧
    (∃ newChat,
      (createChatBetweenUsers initialState "demo_user_2" "demo_user_3" 60).1.chats =
        mapSet initialState.chats ("chat_" ++ "demo_user_2" ++ "_" ++ "demo_user_3") newChat ∧
      (createChatBetweenUsers initialState "demo_user_2" "demo_user_3" 60).1.chats.length =
        initialState.chats.length + 1 ∧
      (createChatBetweenUsers initialState "demo_user_2" "demo_user_3" 60).2 =
        some ("chat_" ++ "demo_user_2" ++ "_" ++ "demo_user_3") ∧
      newChat.chatType = "private" ∧ newChat.participants = ["demo_user_2", "demo_user_3"] ∧
      (∃ m, newChat.messages = [m] ∧ m.senderId = "demo_user_2") ∧
      (∀ now', createChatBetweenUsers
          (createChatBetweenUsers initialState "demo_user_2" "demo_user_3" 60).1
          "demo_user_2" "demo_user_3" now' =
        ((createChatBetweenUsers initialState "demo_user_2" "demo_user_3" 60).1,
          some ("chat_" ++ "demo_user_2" ++ "_" ++ "demo_user_3")))) :=
  ⟨(createChatBetweenUsers_idempotent exSPair "demo_user_2" "demo_user_3" 61).1
      exPairChat (by decide),
   (createChatBetweenUsers_idempotent exSPair "demo_user_3" "demo_user_2" 62).2.1
      (by decide) exPairChat (by decide),
   (createChatBetweenUsers_idempotent initialState "demo_user_2" "demo_user_3" 60).2.2
      (by decide) (by decide)
      (mkDemoUser "demo_user_2" "Иван Петров" "ivan@example.com" "И" "offline" (demoT0 - 3600000))
      (mkDemoUser "demo_user_3" "Мария Сидорова" "maria@example.com" "М" "online" demoT0)
      (by decide) (by decide)⟩

/-- C5 (amended): in version 1 a startCall by a participant of a known chat
creates `Call{status calling, participants [caller], startTime now}`, emits
`incoming_call` to every other connected participant and `call_started` back
to the caller.  In version 2 the record is keyed by the chatId, its
participants are the chat's whole participant list, `incoming_call` goes to
every other connected participant, and no `call_started` is emitted. -/
theorem startCall_spec :
    (∀ (s : ServerState) (sid : SocketId) (chatId : ChatId) (ty : Option String) (now : Nat)
        (caller : UserId) (chat : Chat) (user : User),
      mapGet s.socketUsers sid = some caller →
      chatId ≠ "" →
      mapGet s.chats chatId = some chat →
      caller ∈ chat.participants →
      mapGet s.users caller = some user →
      ∃ call, mapGet ((handleStartCall s sid chatId ty now).1).activeCalls
          ("call_" ++ toString now) = some call ∧
        call.status = "calling" ∧ call.participants = [caller] ∧
        call.startTime = now ∧ call.callerId = caller ∧
        Event.callStarted sid ("call_" ++ toString now) call ∈
          (handleStartCall s sid chatId ty now).2 ∧
        (∀ p psid, p ∈ chat.participants → p ≠ caller → getSocketByUserId s p = some psid →
          Event.incomingCall psid ("call_" ++ toString now) chatId user.name (jsOr ty "voice") ∈
            (handleStartCall s sid chatId ty now).2)) ∧
    (∀ (s2 : ServerStateV2) (actingUser : Option UserId) (chatId : ChatId)
        (caller ty : Option String) (now : Nat) (chat2 : ChatV2),
      mapGet s2.chats chatId = some chat2 →
      ∃ call2, mapGet ((handleStartCallV2 s2 actingUser chatId caller ty now).1).activeCalls
          chatId = some call2 ∧
        call2.status = "calling" ∧ call2.participants = chat2.participants ∧
        call2.startTime = now ∧
        (∀ p psid, p ∈ chat2.participants → some p ≠ actingUser →
          getSocketByUserIdV2 s2 p = some psid →
          Event.incomingCallV2 psid chatId caller ty ∈
            (handleStartCallV2 s2 actingUser chatId caller ty now).2) ∧
        (∀ e, e ∈ (handleStartCallV2 s2 actingUser chatId caller ty now).2 →
          ∃ psid, e = Event.incomingCallV2 psid chatId caller ty)) := by
  constructor
  · intro s sid chatId ty now caller chat user hsid hc hchat hmem huser
    simp only [handleStartCall, hsid, if_neg hc, hchat, if_pos hmem, huser]
    rw [mapGet_mapSet]
    simp only [if_pos rfl, Option.some.injEq]
    refine ⟨_, rfl, rfl, rfl, rfl, rfl, ?_, ?_⟩
    · exact List.mem_append.mpr (Or.inr (List.mem_singleton.mpr rfl))
    · intro p psid hp hne hpsock
      refine List.mem_append.mpr (Or.inl (List.mem_filterMap.mpr ⟨p, hp, ?_⟩))
      rw [if_pos hne, hpsock]
      rfl
  · intro s2 actingUser chatId caller ty now chat2 hchat
    simp only [handleStartCallV2, hchat]
    rw [mapGet_mapSet]
    simp only [if_pos rfl, Option.some.injEq]
    refine ⟨_, rfl, rfl, rfl, rfl, ?_, ?_⟩
    · intro p psid hp hne hpsock
      refine List.mem_filterMap.mpr ⟨p, hp, ?_⟩
      rw [hpsock]
      simp only [if_pos hne]
    · intro e he
      obtain ⟨p, hp, hf⟩ := List.mem_filterMap.mp he
      cases hpsock : getSocketByUserIdV2 s2 p with
      | none => rw [hpsock] at hf; simp at hf
      | some psid =>
        rw [hpsock] at hf
        by_cases hne : some p ≠ actingUser
        · simp only [if_pos hne, Option.some.injEq] at hf
          exact ⟨psid, hf.symm⟩
        · simp only [if_neg hne] at hf
          simp at hf

/-- C5 witness: `demo_user_1` starts a call in the demo chat of `exS`
(version 1), and `A` starts a call in chat `c2` of `exStateV2` (version 2). -/
theorem startCall_spec_witness :
    (∃ call, mapGet ((handleStartCall exS "s1" "demo_chat_demo_user_1" (some "video") 77).1).activeCalls
        ("call_" ++ toString 77) = some call ∧
      call.status = "calling" ∧ call.participants = ["demo_user_1"] ∧
      call.startTime = 77 ∧ call.callerId = "demo_user_1" ∧
      Event.callStarted "s1" ("call_" ++ toString 77) call ∈
        (handleStartCall exS "s1" "demo_chat_demo_user_1" (some "video") 77).2 ∧
      (∀ p psid, p ∈ demoChat.participants → p ≠ "demo_user_1" →
        getSocketByUserId exS p = some psid →
        Event.incomingCall psid ("call_" ++ toString 77) "demo_chat_demo_user_1"
            (mkDemoUser "demo_user_1" "Анна Иванова" "anna@example.com" "А" "online" demoT0).name
            (jsOr (some "video") "voice") ∈
          (handleStartCall exS "s1" "demo_chat_demo_user_1" (some "video") 77).2)) ∧
    (∃ call2, mapGet ((handleStartCallV2 exStateV2 (some "A") "c2" (some "Anna") (some "video") 5).1).activeCalls
        "c2" = some call2 ∧
      call2.status = "calling" ∧ call2.participants = exChatV2.participants ∧
      call2.startTime = 5 ∧
      (∀ p psid, p ∈ exChatV2.participants → some p ≠ some "A" →
        getSocketByUserIdV2 exStateV2 p = some psid →
        Event.incomingCallV2 psid "c2" (some "Anna") (some "video") ∈
          (handleStartCallV2 exStateV2 (some "A") "c2" (some "Anna") (some "video") 5).2) ∧
      (∀ e, e ∈ (handleStartCallV2 exStateV2 (some "A") "c2" (some "Anna") (some "video") 5).2 →
        ∃ psid, e = Event.incomingCallV2 psid "c2" (some "Anna") (some "video"))) :=
  ⟨startCall_spec.1 exS "s1" "demo_chat_demo_user_1" (some "video") 77 "demo_user_1" demoChat
      (mkDemoUser "demo_user_1" "Анна Иванова" "anna@example.com" "А" "online" demoT0)
      (by decide) (by decide) (by decide) (by decide) (by decide),
   startCall_spec.2 exStateV2 (some "A") "c2" (some "Anna") (some "video") 5 exChatV2 (by decide)⟩

/-- C5 counterexample: in version 2 a startCall by participant `A` of the
known chat `c2` stores participants `["A", "B"]`, not `[A]`, and emits only
`incoming_call` — no `call_started` goes back to the caller. -/
theorem startCall_spec_counterexample :
    (mapGet ((handleStartCallV2 exStateV2 (some "A") "c2" (some "Anna") (some "video") 5).1).activeCalls
        "c2").map (fun c => c.participants) = some ["A", "B"] ∧
    ¬ (mapGet ((handleStartCallV2 exStateV2 (some "A") "c2" (some "Anna") (some "video") 5).1).activeCalls
        "c2").map (fun c => c.participants) = some ["A"] ∧
    (handleStartCallV2 exStateV2 (some "A") "c2" (some "Anna") (some "video") 5).2 =
      [Event.incomingCallV2 "sB" "c2" (some "Anna") (some "video")] := by
  refine ⟨by decide, by decide, by decide⟩

/-- A version-1 state with one ringing call `call1` started by `demo_user_1`. -/
def exSCall : ServerState :=
  { exS with activeCalls := [("call1",
      { id := "call1", chatId := "demo_chat_demo_user_1", callerId := "demo_user_1"
        callerName := "Анна Иванова", callType := "voice"
        participants := ["demo_user_1"], status := "calling", startTime := 100 })] }

/-- The call record stored in `exSCall`. -/
def exCall : Call :=
  { id := "call1", chatId := "demo_chat_demo_user_1", callerId := "demo_user_1"
    callerName := "Анна Иванова", callType := "voice"
    participants := ["demo_user_1"], status := "calling", startTime := 100 }

/-- C6 (amended): in version 1, accept_call on an unknown callId is a no-op;
on a known callId it appends the acting user to the participants, sets the
status to active and `io.emit`s (to every connected session) `call_accepted`
with the updated call data.  In version 2 (keyed by chatId) the unknown case
is likewise a no-op, but the acting user is not appended — only the status
changes — and `call_accepted{chatId, caller}` goes only to the recorded
participants with a live socket. -/
theorem acceptCall_spec :
    (∀ (s : ServerState) (sid : SocketId) (callId : CallId) (u : UserId),
      mapGet s.socketUsers sid = some u → callId ≠ "" →
      mapGet s.activeCalls callId = none →
      handleAcceptCall s sid callId = (s, [])) ∧
    (∀ (s : ServerState) (sid : SocketId) (callId : CallId) (u : UserId) (call : Call),
      mapGet s.socketUsers sid = some u → callId ≠ "" →
      mapGet s.activeCalls callId = some call →
      ∃ call', mapGet ((handleAcceptCall s sid callId).1).activeCalls callId = some call' ∧
        call'.participants = call.participants ++ [u] ∧ call'.status = "active" ∧
        (handleAcceptCall s sid callId).2 = [Event.callAcceptedBroadcast callId u call']) ∧
    (∀ (s2 : ServerStateV2) (chatId : ChatId),
      mapGet s2.activeCalls chatId = none → handleAcceptCallV2 s2 chatId = (s2, [])) ∧
    (∀ (s2 : ServerStateV2) (chatId : ChatId) (call : CallV2),
      mapGet s2.activeCalls chatId = some call →
      ∃ call', mapGet ((handleAcceptCallV2 s2 chatId).1).activeCalls chatId = some call' ∧
        call'.status = "active" ∧ call'.participants = call.participants ∧
        (∀ p psid, p ∈ call.participants → getSocketByUserIdV2 s2 p = some psid →
          Event.callAcceptedV2 psid chatId call.caller ∈ (handleAcceptCallV2 s2 chatId).2) ∧
        (∀ e, e ∈ (handleAcceptCallV2 s2 chatId).2 →
          ∃ p psid, p ∈ call.participants ∧ getSocketByUserIdV2 s2 p = some psid ∧
            e = Event.callAcceptedV2 psid chatId call.caller)) := by
  refine ⟨?_, ?_, ?_, ?_⟩
  · intro s sid callId u hsid hc hnone
    simp [handleAcceptCall, hsid, hc, hnone]
  · intro s sid callId u call hsid hc hcall
    simp only [handleAcceptCall, hsid, if_neg hc, hcall]
    rw [mapGet_mapSet]
    simp only [if_pos rfl, Option.some.injEq]
    exact ⟨_, rfl, rfl, rfl, rfl⟩
  · intro s2 chatId hnone
    simp [handleAcceptCallV2, hnone]
  · intro s2 chatId call hcall
    simp only [handleAcceptCallV2, hcall]
    rw [mapGet_mapSet]
    simp only [if_pos rfl, Option.some.injEq]
    refine ⟨_, rfl, rfl, rfl, ?_, ?_⟩
    · intro p psid hp hpsock
      refine List.mem_filterMap.mpr ⟨p, hp, ?_⟩
      rw [hpsock]
      rfl
    · intro e he
      obtain ⟨p, hp, hf⟩ := List.mem_filterMap.mp he
      cases hpsock : getSocketByUserIdV2 s2 p with
      | none => rw [hpsock] at hf; simp at hf
      | some psid =>
        rw [hpsock] at hf
        have hf2 : Event.callAcceptedV2 psid chatId call.caller = e := by
          simpa using hf
        exact ⟨p, psid, hp, hpsock, hf2.symm⟩

/-- C6 witness: unknown ids are no-ops in both versions; accepting `call1`
in `exSCall` as `demo_user_2` appends it and broadcasts; accepting the `c2`
call of `exStateV2` flips the status and notifies its recorded participants. -/
theorem acceptCall_spec_witness :
    (handleAcceptCall exSCall "s2" "nocall" = (exSCall, [])) ∧
    (∃ call', mapGet ((handleAcceptCall exSCall "s2" "call1").1).activeCalls "call1" = some call' ∧
      call'.participants = exCall.participants ++ ["demo_user_2"] ∧ call'.status = "active" ∧
      (handleAcceptCall exSCall "s2" "call1").2 =
        [Event.callAcceptedBroadcast "call1" "demo_user_2" call']) ∧
    (handleAcceptCallV2 exStateV2 "nochat" = (exStateV2, [])) ∧
    (∃ call', mapGet ((handleAcceptCallV2 exStateV2 "c2").1).activeCalls "c2" = some call' ∧
      call'.status = "active" ∧ call'.participants = exCallV2.participants ∧
      (∀ p psid, p ∈ exCallV2.participants → getSocketByUserIdV2 exStateV2 p = some psid →
        Event.callAcceptedV2 psid "c2" exCallV2.caller ∈ (handleAcceptCallV2 exStateV2 "c2").2) ∧
      (∀ e, e ∈ (handleAcceptCallV2 exStateV2 "c2").2 →
        ∃ p psid, p ∈ exCallV2.participants ∧ getSocketByUserIdV2 exStateV2 p = some psid ∧
          e = Event.callAcceptedV2 psid "c2" exCallV2.caller)) :=
  ⟨acceptCall_spec.1 exSCall "s2" "nocall" "demo_user_2" (by decide) (by decide) (by decide),
   acceptCall_spec.2.1 exSCall "s2" "call1" "demo_user_2" exCall (by decide) (by decide) (by decide),
   acceptCall_spec.2.2.1 exStateV2 "nochat" (by decide),
   acceptCall_spec.2.2.2 exStateV2 "c2" exCallV2 (by decide)⟩

/-- C6 counterexample: version 2 accepts the known call `c2` without
appending any acting user (participants stay `["A", "B"]`), and the
`call_accepted` events go only to the recorded participants' sockets — the
connected session `sC` of user `C` receives nothing. -/
theorem acceptCall_spec_counterexample :
    (mapGet ((handleAcceptCallV2 exStateV2 "c2").1).activeCalls "c2").map
        (fun c => c.participants) = some ["A", "B"] ∧
    (handleAcceptCallV2 exStateV2 "c2").2 =
      [Event.callAcceptedV2 "sA" "c2" "Anna", Event.callAcceptedV2 "sB" "c2" "Anna"] ∧
    getSocketByUserIdV2 exStateV2 "C" = some "sC" := by
  refine ⟨by decide, by decide, by decide⟩

/-- C7: end_call with an unknown id is a no-op in both versions; for a known
id it emits `call_ended` with duration `floor((now - startTime) / 1000)` to
every recorded participant with a live connection and deletes the record
regardless of its status, so the id no longer resolves. -/
theorem endCall_spec :
    (∀ (s : ServerState) (callId : CallId) (now : Nat),
      callId ≠ "" → mapGet s.activeCalls callId = none →
      handleEndCall s callId now = (s, [])) ∧
    (∀ (s : ServerState) (callId : CallId) (now : Nat) (call : Call),
      callId ≠ "" → mapGet s.activeCalls callId = some call →
      (s.activeCalls.map Prod.fst).Nodup →
      mapGet ((handleEndCall s callId now).1).activeCalls callId = none ∧
      (∀ p psid, p ∈ call.participants → getSocketByUserId s p = some psid →
        Event.callEnded psid callId (((now : Int) - (call.startTime : Int)).fdiv 1000) ∈
          (handleEndCall s callId now).2)) ∧
    (∀ (s2 : ServerStateV2) (chatId : ChatId) (now : Nat),
      mapGet s2.activeCalls chatId = none → handleEndCallV2 s2 chatId now = (s2, [])) ∧
    (∀ (s2 : ServerStateV2) (chatId : ChatId) (now : Nat) (call : CallV2),
      mapGet s2.activeCalls chatId = some call →
      (s2.activeCalls.map Prod.fst).Nodup →
      mapGet ((handleEndCallV2 s2 chatId now).1).activeCalls chatId = none ∧
      (∀ p psid, p ∈ call.participants → getSocketByUserIdV2 s2 p = some psid →
        Event.callEndedV2 psid chatId (((now : Int) - (call.startTime : Int)).fdiv 1000) ∈
          (handleEndCallV2 s2 chatId now).2)) := by
  refine ⟨?_, ?_, ?_, ?_⟩
  · intro s callId now hc hnone
    simp [handleEndCall, hc, hnone]
  · intro s callId now call hc hcall hnodup
    simp only [handleEndCall, if_neg hc, hcall]
    refine ⟨mapGet_mapDelete_nodup _ _ hnodup, ?_⟩
    intro p psid hp hpsock
    refine List.mem_filterMap.mpr ⟨p, hp, ?_⟩
    rw [hpsock]
    rfl
  · intro s2 chatId now hnone
    simp [handleEndCallV2, hnone]
  · intro s2 chatId now call hcall hnodup
    simp only [handleEndCallV2, hcall]
    refine ⟨mapGet_mapDelete_nodup _ _ hnodup, ?_⟩
    intro p psid hp hpsock
    refine List.mem_filterMap.mpr ⟨p, hp, ?_⟩
    rw [hpsock]
    rfl

/-- C7 witness: ending `call1` of `exSCall` and the `c2` call of `exStateV2`
deletes them and reports the floored duration to the connected participants;
unknown ids are no-ops. -/
theorem endCall_spec_witness :
    (handleEndCall exSCall "nocall" 5100 = (exSCall, [])) ∧
    (mapGet ((handleEndCall exSCall "call1" 5100).1).activeCalls "call1" = none ∧
      (∀ p psid, p ∈ exCall.participants → getSocketByUserId exSCall p = some psid →
        Event.callEnded psid "call1" (((5100 : Int) - (exCall.startTime : Int)).fdiv 1000) ∈
          (handleEndCall exSCall "call1" 5100).2)) ∧
    (handleEndCallV2 exStateV2 "nochat" 5100 = (exStateV2, [])) ∧
    (mapGet ((handleEndCallV2 exStateV2 "c2" 5100).1).activeCalls "c2" = none ∧
      (∀ p psid, p ∈ exCallV2.participants → getSocketByUserIdV2 exStateV2 p = some psid →
        Event.callEndedV2 psid "c2" (((5100 : Int) - (exCallV2.startTime : Int)).fdiv 1000) ∈
          (handleEndCallV2 exStateV2 "c2" 5100).2)) :=
  ⟨endCall_spec.1 exSCall "nocall" 5100 (by decide) (by decide),
   endCall_spec.2.1 exSCall "call1" 5100 exCall (by decide) (by decide) (by decide),
   endCall_spec.2.2.1 exStateV2 "nochat" 5100 (by decide),
   endCall_spec.2.2.2 exStateV2 "c2" 5100 exCallV2 (by decide) (by decide)⟩

/-- The double-login/disconnect run: `demo_user_2` authenticates on `sf`,
`demo_user_1` authenticates on `c1` and again on `c2`, then `c1`
disconnects. -/
def divergenceRun : ServerState × List Event :=
  handleDisconnect
    (handleAuthenticate
      (handleAuthenticate
        (handleAuthenticate initialState "sf" (some "demo_user_2") 10).1
        "c1" (some "demo_user_1") 20).1
      "c2" (some "demo_user_1") 30).1
    "c1" 40

/-- C10: after authenticating `demo_user_1` on two connections and dropping
the first, a reachable state is obtained in which `isUserOnline` still
reports true (the second connection remains registered) while the stored
status field says `offline`, and the connected friend `demo_user_2` has just
been sent `friend_status_changed` with status `offline`. -/
theorem stored_presence_divergence :
    Reachable divergenceRun.1 ∧
    isUserOnline divergenceRun.1 "demo_user_1" = true ∧
    (mapGet divergenceRun.1.users "demo_user_1").map (fun u => u.status) = some "offline" ∧
    Event.friendStatusChanged "sf" "demo_user_1" "Анна Иванова" "offline" 40 ∈
      divergenceRun.2 := by
  refine ⟨?_, by decide, by decide, by decide⟩
  exact Reachable.step
    (Reachable.step
      (Reachable.step
        (Reachable.step Reachable.init
          (Step.authenticate initialState "sf" (some "demo_user_2") 10))
        (Step.authenticate _ "c1" (some "demo_user_1") 20))
      (Step.authenticate _ "c2" (some "demo_user_1") 30))
    (Step.disconnect _ "c1" 40)
